import Mathlib

/-!
Verification of the Hand Music gesture-to-sound pipeline.

Shallow embedding of the per-hand gesture state machine, dropout/recovery
policy, vibrato gating, sample selection, loop-point search, and the audio
engine's attack/release entry points, translated from
`Hand Music/Music Body Face` (the main application component and the audio
engine module).  JS numbers are modelled as exact rationals (`ℚ`); the two
places where the source computes irrational values (`Math.exp` in the
vibrato flip-rate decay, `Math.sqrt` in the RMS loop-point scoring) are
modelled with `Real.exp` / `Real.sqrt`.
-/

namespace HandMusic

/-! ### Constants (App component, gesture/debounce section) -/

/-- `OPENNESS_SMOOTHING = 0.35`. -/
def OPENNESS_SMOOTHING : ℚ := 0.35

/-- `RELEASE_GAIN = 0.5`. -/
def RELEASE_GAIN : ℚ := 0.5

/-- `FIST_CLOSED_THRESHOLD = 0.09`. -/
def FIST_CLOSED_THRESHOLD : ℚ := 0.09

/-- `HAND_OPEN_THRESHOLD = 0.12`. -/
def HAND_OPEN_THRESHOLD : ℚ := 0.12

/-- `RELEASE_TIMEOUT_MS = 2000`. -/
def RELEASE_TIMEOUT_MS : ℚ := 2000

/-- `OPEN_CONFIRM_MS = 35`. -/
def OPEN_CONFIRM_MS : ℚ := 35

/-- `OPEN_CONFIRM_MS_RELEASE = 25`. -/
def OPEN_CONFIRM_MS_RELEASE : ℚ := 25

/-- `CLOSED_CONFIRM_MS = 90`. -/
def CLOSED_CONFIRM_MS : ℚ := 90

/-- `TRACKING_LOSS_GRACE_MS = 600`. -/
def TRACKING_LOSS_GRACE_MS : ℚ := 600

/-- `TRACKING_LOSS_MAX_HOLD_MS = 3000`. -/
def TRACKING_LOSS_MAX_HOLD_MS : ℚ := 3000

/-- `REVERB_MAX_MIX = 0.75`. -/
def REVERB_MAX_MIX : ℚ := 0.75

/-- `REVERB_MIN_TAIL = 0.3`. -/
def REVERB_MIN_TAIL : ℚ := 0.3

/-- `REVERB_MAX_TAIL = 6.0`. -/
def REVERB_MAX_TAIL : ℚ := 6.0

/-- `REVERB_MAX_TRAIL_HEIGHTS = 2.0`. -/
def REVERB_MAX_TRAIL_HEIGHTS : ℚ := 2.0

/-- `REVERB_MIX_SMOOTH = 0.08`. -/
def REVERB_MIX_SMOOTH : ℚ := 0.08

/-- `REVERB_DECAY_DURING_PLAY = 1.0`. -/
def REVERB_DECAY_DURING_PLAY : ℚ := 1.0

/-! ### Data model -/

/-- `AudioParams`: the per-frame control-parameter value object sent to the
playback engine. -/
structure AudioParams where
  pitchShift : ℚ
  gain : ℚ
  filterCutoff : ℚ
  delayTime : ℚ
  feedback : ℚ
  reverbMix : ℚ
  reverbDecay : ℚ
deriving DecidableEq, Repr

/-- The default all-quiet parameter record
`{ pitchShift: 0, gain: 0, filterCutoff: 1, delayTime: 0, feedback: 0, reverbMix: 0, reverbDecay: 1 }`. -/
def defaultParams : AudioParams :=
  { pitchShift := 0, gain := 0, filterCutoff := 1, delayTime := 0, feedback := 0,
    reverbMix := 0, reverbDecay := 1 }

/-- A held-reverb record `{ startMs, mix, decay }` (the `ReverbHold` type of the
App component). -/
structure ReverbHold where
  startMs : ℚ
  mix : ℚ
  decay : ℚ
deriving DecidableEq, Repr

/-- The per-hand `HandState` of the App component, restricted to the fields that
drive the note state machine, the debounce counters, and the dropout policy.
The continuous-signal fields whose values never feed a branch of the state
machine (`smoothedPitch`, `pitchTargetLp`, `prevYVelocity`, `lastFlipMs`,
`flipHzEma`, `smoothedJerkiness`, `opennessHist`, `gainSmooth`,
`closedOpennessSlew`, `reacquireFromParams`, `reacquireStartMs`) are modelled
separately (`VibState` below) or omitted; `trailLengthNorm` stands for the
per-hand `trails[handedness].lengthNorm` accumulator and `reverbHold` for the
per-hand `reverbHold[handedness]` entry (both are keyed by handedness in the
source, hence exactly one per `HandState`). -/
structure HandState where
  smoothedOpenness : ℚ
  wasPlaying : Bool
  isInRelease : Bool
  releaseStartTime : ℚ
  lastTimestamp : ℚ
  lastSeenMs : ℚ
  lastParams : AudioParams
  reverbMixSmooth : ℚ
  openConfirmMs : ℚ
  closedConfirmMs : ℚ
  lastAttackMs : ℚ
  lastReleaseMs : ℚ
  smoothedVelocity : ℚ
  smoothedPalmRotation : ℚ
  prevHandPos : Option (ℚ × ℚ)
  trailLengthNorm : ℚ
  reverbHold : Option ReverbHold
deriving DecidableEq, Repr

/-- `createHandState()`: the freshly initialised per-hand state. -/
def createHandState : HandState :=
  { smoothedOpenness := 0, wasPlaying := false, isInRelease := false,
    releaseStartTime := 0, lastTimestamp := 0, lastSeenMs := 0,
    lastParams := defaultParams, reverbMixSmooth := 0,
    openConfirmMs := 0, closedConfirmMs := 0, lastAttackMs := 0, lastReleaseMs := 0,
    smoothedVelocity := 0, smoothedPalmRotation := 0.5, prevHandPos := none,
    trailLengthNorm := 0, reverbHold := none }

/-- Per-frame input to the gesture state machine.  `measuredOpenness` is the
median fingertip-to-wrist distance computed from the landmarks (`none` models
the source's guard for fewer than 3 valid fingertip distances, in which case
the previous smoothed value is reused); `sensitivity` is the UI
`opennessSensitivity` slider; `wallNow` is `Date.now()`; `computedParams` is
the `AudioParams` record assembled by the value-level tail of `processHand`
(lines that write no state-machine field), whose stored copy becomes
`lastParams`. -/
structure GestureFrame where
  timestamp : ℚ
  wallNow : ℚ
  sensitivity : ℚ
  measuredOpenness : Option ℚ
  computedParams : AudioParams
deriving DecidableEq, Repr

/-! ### Open/closed candidate determination (processHand lines 854-867) -/

/-- `closedOpenness = state.smoothedOpenness / Math.max(1, opennessSensitivity)`. -/
def closedOpennessOf (openness sensitivity : ℚ) : ℚ :=
  openness / max 1 sensitivity

/-- `isFistClosedRaw = closedOpenness < FIST_CLOSED_THRESHOLD`. -/
def isFistClosedRawOf (openness sensitivity : ℚ) : Bool :=
  decide (closedOpennessOf openness sensitivity < FIST_CLOSED_THRESHOLD)

/-- `isHandOpenRaw = opennessForControls > HAND_OPEN_THRESHOLD`. -/
def isHandOpenRawOf (openness : ℚ) : Bool :=
  decide (openness > HAND_OPEN_THRESHOLD)

/-- `openCandidate = isHandOpenRaw && !isFistClosedRaw`. -/
def openCandidateOf (openness sensitivity : ℚ) : Bool :=
  isHandOpenRawOf openness && !isFistClosedRawOf openness sensitivity

/-- `closedCandidate = isFistClosedRaw && !isHandOpenRaw`. -/
def closedCandidateOf (openness sensitivity : ℚ) : Bool :=
  isFistClosedRawOf openness sensitivity && !isHandOpenRawOf openness

/-! ### Trail-length to reverb mapping (App component) -/

/-- `mapTrailToReverb(lengthNorm)` returning `(mix, decay)`. -/
def mapTrailToReverb (lengthNorm : ℚ) : ℚ × ℚ :=
  let x := max 0 (min 1 (lengthNorm / REVERB_MAX_TRAIL_HEIGHTS))
  let mix := REVERB_MAX_MIX * x
  let decay := REVERB_MIN_TAIL + (REVERB_MAX_TAIL - REVERB_MIN_TAIL) * x
  (if lengthNorm < 0.02 then 0 else mix, decay)

/-- `currentReverbFor(handedness, state, nowMs)`: returns the updated state
together with `(reverbMix, reverbDecay)`.  Mutates `reverbHold` (clearing an
expired hold) or `reverbMixSmooth` exactly as the source does. -/
def currentReverbFor (s : HandState) (nowMs : ℚ) : HandState × ℚ × ℚ :=
  match s.reverbHold with
  | some hold =>
    let elapsed := max 0 ((nowMs - hold.startMs) / 1000)
    let t := max 0 (1 - elapsed / max 0.001 hold.decay)
    if t ≤ 0.001 then ({ s with reverbHold := none }, 0, 1)
    else (s, hold.mix * t, hold.decay)
  | none =>
    let mapped := mapTrailToReverb s.trailLengthNorm
    let s := { s with reverbMixSmooth :=
      REVERB_MIX_SMOOTH * mapped.1 + (1 - REVERB_MIX_SMOOTH) * s.reverbMixSmooth }
    (s, s.reverbMixSmooth, REVERB_DECAY_DURING_PLAY)

/-! ### The gesture state machine step (processHand) -/

/-- The frame time step `dt` of `processHand`:
`state.lastTimestamp > 0 ? (timestamp - state.lastTimestamp) / 1000 : 0.033`. -/
def dtOf (s : HandState) (f : GestureFrame) : ℚ :=
  if s.lastTimestamp > 0 then (f.timestamp - s.lastTimestamp) / 1000 else 0.033

/-- `dtMs = dt * 1000`. -/
def dtMsOf (s : HandState) (f : GestureFrame) : ℚ := dtOf s f * 1000

/-- The smoothed openness after this frame's EMA update
(`state.smoothedOpenness = 0.35 * measuredOpenness + 0.65 * state.smoothedOpenness`,
where `measuredOpenness` falls back to the previous smoothed value when fewer
than 3 fingertip distances are available). -/
def opennessAfter (s : HandState) (f : GestureFrame) : ℚ :=
  OPENNESS_SMOOTHING * (f.measuredOpenness.getD s.smoothedOpenness) +
    (1 - OPENNESS_SMOOTHING) * s.smoothedOpenness

/-- Whether this frame is an open-gesture candidate frame (computed, as in the
source, from the post-EMA smoothed openness). -/
def openCandAt (s : HandState) (f : GestureFrame) : Bool :=
  openCandidateOf (opennessAfter s f) f.sensitivity

/-- Whether this frame is a closed-gesture candidate frame. -/
def closedCandAt (s : HandState) (f : GestureFrame) : Bool :=
  closedCandidateOf (opennessAfter s f) f.sensitivity

/-- The bookkeeping, EMA, and debounce-counter updates of `processHand`
(everything before the release/retrigger block, restricted to state fields):
`state.lastTimestamp = timestamp`, the openness EMA, and
`openConfirmMs`/`closedConfirmMs` accumulating `dtMs` (capped at 1000) while
their candidate holds and resetting to 0 the instant it does not. -/
def debounced (s : HandState) (f : GestureFrame) : HandState :=
  { s with lastTimestamp := f.timestamp,
           smoothedOpenness := opennessAfter s f,
           openConfirmMs :=
             if openCandAt s f then min 1000 (s.openConfirmMs + dtMsOf s f) else 0,
           closedConfirmMs :=
             if closedCandAt s f then min 1000 (s.closedConfirmMs + dtMsOf s f) else 0 }

/-- The state mutations of an attack transition in `processHand` (shared by
the retrigger-during-release path and the idle attack path):
`reverbHold = null; reverbMixSmooth = 0; openConfirmMs = 0; closedConfirmMs = 0;
startTrail(...); wasPlaying = true; lastAttackMs = timestamp`. -/
def applyAttack (s : HandState) (f : GestureFrame) : HandState :=
  { s with reverbHold := none, reverbMixSmooth := 0,
           openConfirmMs := 0, closedConfirmMs := 0,
           trailLengthNorm := 0,
           wasPlaying := true, lastAttackMs := f.timestamp }

/-- The state mutations of a release transition in `processHand`:
`releaseTrail(...); reverbHold = { startMs: timestamp, ...mapTrailToReverb };
wasPlaying = false; isInRelease = true; releaseStartTime = Date.now();
lastReleaseMs = timestamp`. -/
def applyRelease (s : HandState) (f : GestureFrame) : HandState :=
  let mapped := mapTrailToReverb s.trailLengthNorm
  { s with reverbHold := some ⟨f.timestamp, mapped.1, mapped.2⟩,
           wasPlaying := false, isInRelease := true,
           releaseStartTime := f.wallNow, lastReleaseMs := f.timestamp }

/-- The `if (state.isInRelease)` block of `processHand`: re-trigger when the
hand is genuinely detected open for at least `OPEN_CONFIRM_MS_RELEASE`, or
fall back to idle after `RELEASE_TIMEOUT_MS`.  `openCandidate` is this
frame's open-candidate flag; the counters read here are the
already-updated ones (the block runs after the debounce update). -/
def retriggerBlock (s : HandState) (f : GestureFrame) (openCandidate : Bool) : HandState :=
  if s.isInRelease then
    let isHandOpenForRelease :=
      openCandidate && decide (s.openConfirmMs ≥ OPEN_CONFIRM_MS_RELEASE)
    if isHandOpenForRelease || decide (f.wallNow - s.releaseStartTime > RELEASE_TIMEOUT_MS) then
      let s := { s with isInRelease := false }
      if isHandOpenForRelease then applyAttack s f else s
    else s
  else s

/-- The plain state transitions of `processHand`: attack on a confirmed open
hand from idle, release on a confirmed fist while playing.  `isHandOpen` and
`isFistClosed` are the debounce verdicts computed before the retrigger
block ran (as in the source). -/
def transitionBlock (s : HandState) (f : GestureFrame) (isHandOpen isFistClosed : Bool) :
    HandState :=
  if isHandOpen && !s.wasPlaying && !s.isInRelease then applyAttack s f
  else if isFistClosed && s.wasPlaying then applyRelease s f
  else s

/-- The gesture state-machine portion of `processHand` (App component): frame
time step, openness EMA, open/closed candidates, debounce counters, the
release/retrigger block, and the attack/release transitions, followed by the
`lastSeenMs`/`lastParams` bookkeeping.  The value-level computations of
`processHand` that write none of these fields (velocity/jerkiness smoothing,
palm rotation, the vibrato block — modelled separately as `processHandVibrato`
— the gain envelope and the parameter assembly) are summarised by the
`computedParams` input, which the source stores into `state.lastParams`. -/
def processHandGesture (s0 : HandState) (f : GestureFrame) : HandState :=
  let s1 := debounced s0 f
  let isHandOpen := decide (s1.openConfirmMs ≥ OPEN_CONFIRM_MS)
  let isFistClosed := decide (s1.closedConfirmMs ≥ CLOSED_CONFIRM_MS)
  let s2 := retriggerBlock s1 f (openCandAt s0 f)
  let s3 := transitionBlock s2 f isHandOpen isFistClosed
  { s3 with lastSeenMs := f.timestamp, lastParams := f.computedParams }

/-! ### Lost-hand handling (handleTrackingResult) -/

/-- Per-frame input to the lost-hand branch of `handleTrackingResult`.
`forcedSilent` models `singleHandMode && handedness !== selectedHandedness`;
`prevPitchShift` is the `pitchShift` of the previously emitted `audioParams`
record for this hand (`audioParams1`/`audioParams2`), which the source
carries over unchanged. -/
structure LostFrame where
  timestamp : ℚ
  wallNow : ℚ
  forcedSilent : Bool
  prevPitchShift : ℚ
deriving DecidableEq, Repr

/-- The body of `handleTrackingResult` for a hand that is not among the
detected hands this frame: the single-hand forced-silent reset, the
three-tier dropout policy (freeze within `TRACKING_LOSS_GRACE_MS`, gentle
modulation decay within `TRACKING_LOSS_MAX_HOLD_MS`, forced release past it),
the release timeout, the signal decay, and the emitted `AudioParams`.
Returns the updated state together with the params written to
`audioParams1`/`audioParams2`.  (The audio-component `release()` call and the
trail-phase bookkeeping are engine/visual side effects carrying no
`HandState` data; the trail length feeding `mapTrailToReverb` is the
`trailLengthNorm` field.) -/
def handleLostHand (s : HandState) (f : LostFrame) : HandState × AudioParams :=
  if f.forcedSilent then
    -- In single-hand mode, force the non-selected hand to be fully silent/idle.
    let s := { s with wasPlaying := false, isInRelease := false, releaseStartTime := 0,
                      smoothedVelocity := s.smoothedVelocity * 0.9,
                      smoothedPalmRotation := s.smoothedPalmRotation * 0.95,
                      smoothedOpenness := 0, openConfirmMs := 0, closedConfirmMs := 0,
                      lastAttackMs := 0, lastReleaseMs := 0, prevHandPos := none,
                      reverbHold := none, reverbMixSmooth := 0 }
    (s, { pitchShift := f.prevPitchShift, gain := 0, filterCutoff := 1, delayTime := 0,
          feedback := s.smoothedPalmRotation, reverbMix := 0, reverbDecay := 1 })
  else
    -- const msSinceSeen = state.lastSeenMs > 0 ? (timestamp - state.lastSeenMs) : Infinity;
    let seenBefore := decide (s.lastSeenMs > 0)
    let msSinceSeen := f.timestamp - s.lastSeenMs
    let withinGrace := seenBefore && decide (msSinceSeen ≤ TRACKING_LOSS_GRACE_MS)
    let withinMaxHold := seenBefore && decide (msSinceSeen ≤ TRACKING_LOSS_MAX_HOLD_MS)
    if s.wasPlaying && withinGrace then
      -- Keep playing: do not trigger release, do not zero params.
      (s, s.lastParams)
    else if s.wasPlaying && withinMaxHold then
      -- Still missing but not too long: gently decay modulation, keep gain.
      let held := { s.lastParams with delayTime := s.lastParams.delayTime * 0.9,
                                      feedback := s.lastParams.feedback * 0.98 }
      ({ s with lastParams := held }, held)
    else
      -- Past the max hold: trigger release if was playing.
      let s :=
        if s.wasPlaying then
          let mapped := mapTrailToReverb s.trailLengthNorm
          { s with reverbHold := some ⟨f.timestamp, mapped.1, mapped.2⟩,
                   wasPlaying := false, isInRelease := true, releaseStartTime := f.wallNow }
        else s
      -- Check for release timeout.
      let s :=
        if s.isInRelease && decide (f.wallNow - s.releaseStartTime > RELEASE_TIMEOUT_MS) then
          { s with isInRelease := false }
        else s
      -- Decay values.
      let s := { s with smoothedVelocity := s.smoothedVelocity * 0.9,
                        smoothedPalmRotation := s.smoothedPalmRotation * 0.95,
                        smoothedOpenness := 0, prevHandPos := none }
      let gain := if s.isInRelease then RELEASE_GAIN else 0
      let rv := currentReverbFor s f.timestamp
      (rv.1, { pitchShift := f.prevPitchShift, gain := gain,
               filterCutoff := if s.isInRelease then 0.7 else 1,
               delayTime := s.smoothedVelocity, feedback := s.smoothedPalmRotation,
               reverbMix := rv.2.1, reverbDecay := rv.2.2 })

/-- The per-hand states reachable across a session: from `createHandState`
(session start, and the reset performed on stop or on a single-hand-mode
toggle) by any interleaving of detected frames (`processHandGesture`) and
undetected frames (`handleLostHand`, covering the forced-silent reset, grace,
decay hold, forced release, and release timeout). -/
inductive Reachable : HandState → Prop
  | init : Reachable createHandState
  | gesture (s : HandState) (f : GestureFrame) : Reachable s → Reachable (processHandGesture s f)
  | lost (s : HandState) (f : LostFrame) : Reachable s → Reachable (handleLostHand s f).1

/-! ### Vibrato gating (processHand, Y-velocity block) -/

/-- `VIBRATO_MAX_CENTS = 8`. -/
def VIBRATO_MAX_CENTS : ℚ := 8

/-- `VIBRATO_VEL_THRESHOLD = 0.38`. -/
def VIBRATO_VEL_THRESHOLD : ℚ := 0.38

/-- `VIBRATO_FLIP_HZ_THRESHOLD = 5.0`. -/
def VIBRATO_FLIP_HZ_THRESHOLD : ℚ := 5.0

/-- `VIBRATO_FLIP_HZ_SMOOTH = 0.25`. -/
def VIBRATO_FLIP_HZ_SMOOTH : ℚ := 0.25

/-- `VIBRATO_CENTS_PER_VEL = 14`. -/
def VIBRATO_CENTS_PER_VEL : ℚ := 14

/-- `VIBRATO_PITCH_SMOOTH_ATTACK = 0.25`. -/
def VIBRATO_PITCH_SMOOTH_ATTACK : ℚ := 0.25

/-- `VIBRATO_PITCH_SMOOTH_RELEASE = 0.55`. -/
def VIBRATO_PITCH_SMOOTH_RELEASE : ℚ := 0.55

/-- `VIBRATO_RECENT_FLIP_MS = 140`. -/
def VIBRATO_RECENT_FLIP_MS : ℚ := 140

/-- `VIBRATO_FLIP_DECAY_SEC = 0.10`. -/
def VIBRATO_FLIP_DECAY_SEC : ℚ := 0.10

/-- `VIBRATO_LP_TAU_BASE = 0.08`. -/
def VIBRATO_LP_TAU_BASE : ℚ := 0.08

/-- `VIBRATO_LP_TAU_FAST = 0.22`. -/
def VIBRATO_LP_TAU_FAST : ℚ := 0.22

/-- `VIBRATO_SLEW_SEMITONES_PER_SEC = 0.35`. -/
def VIBRATO_SLEW_SEMITONES_PER_SEC : ℚ := 0.35

/-- The vibrato fields of `HandState`: `prevYVelocity`, `lastFlipMs`,
`flipHzEma`, `pitchTargetLp`, `smoothedPitch`.  `flipHzEma` lives in `ℝ`
because the source decays it by `Math.exp(-dt / VIBRATO_FLIP_DECAY_SEC)`. -/
structure VibState where
  prevYVelocity : ℚ
  lastFlipMs : ℚ
  flipHzEma : ℝ
  pitchTargetLp : ℚ
  smoothedPitch : ℚ

/-- Per-frame input to the vibrato block: `yVelocity = dy / dt` (normalized
units per second, positive = moving down), the frame time step `dt`, and the
frame `timestamp` in milliseconds. -/
structure VibFrame where
  yVelocity : ℚ
  dt : ℚ
  timestamp : ℚ

/-- `signFlip = prevYVel !== 0 && (prevYVel > 0) !== (yVelocity > 0)`. -/
def signFlipOf (s : VibState) (f : VibFrame) : Bool :=
  decide (s.prevYVelocity ≠ 0) && (decide (s.prevYVelocity > 0) != decide (f.yVelocity > 0))

/-- The guard of the flip-recording branch:
`signFlip && absYVel > VIBRATO_VEL_THRESHOLD && Math.abs(prevYVel) > VIBRATO_VEL_THRESHOLD`. -/
def flipGateOf (s : VibState) (f : VibFrame) : Bool :=
  signFlipOf s f && decide (|f.yVelocity| > VIBRATO_VEL_THRESHOLD) &&
    decide (|s.prevYVelocity| > VIBRATO_VEL_THRESHOLD)

/-- The flip-rate EMA after this frame.  On a qualifying flip with a previous
flip on record, `flipHzEma = 0.25 * instHz + 0.75 * flipHzEma` where
`instHz = 1 / (Math.max(1, nowMs - lastFlipMs) / 1000)`; otherwise, when
`dt > 0`, the estimate decays by `Math.exp(-dt / VIBRATO_FLIP_DECAY_SEC)`. -/
noncomputable def flipHzEmaAfter (s : VibState) (f : VibFrame) : ℝ :=
  if flipGateOf s f then
    if s.lastFlipMs > 0 then
      ((VIBRATO_FLIP_HZ_SMOOTH * (1000 / max 1 (f.timestamp - s.lastFlipMs)) : ℚ) : ℝ) +
        ((1 - VIBRATO_FLIP_HZ_SMOOTH : ℚ) : ℝ) * s.flipHzEma
    else s.flipHzEma
  else if f.dt > 0 then
    s.flipHzEma * Real.exp (-(f.dt : ℝ) / (VIBRATO_FLIP_DECAY_SEC : ℝ))
  else s.flipHzEma

/-- `state.lastFlipMs` after this frame (set to the frame timestamp exactly
when the flip-recording branch runs). -/
def lastFlipMsAfter (s : VibState) (f : VibFrame) : ℚ :=
  if flipGateOf s f then f.timestamp else s.lastFlipMs

/-- `recentFlipOk = state.lastFlipMs > 0 && (timestamp - state.lastFlipMs) <= VIBRATO_RECENT_FLIP_MS`
(evaluated, as in the source, on the updated `lastFlipMs`). -/
def recentFlipOkOf (s : VibState) (f : VibFrame) : Bool :=
  decide (lastFlipMsAfter s f > 0) &&
    decide (f.timestamp - lastFlipMsAfter s f ≤ VIBRATO_RECENT_FLIP_MS)

/-- `vibratoActive = absYVel > VIBRATO_VEL_THRESHOLD && state.flipHzEma >= VIBRATO_FLIP_HZ_THRESHOLD && recentFlipOk`. -/
def vibratoActiveOf (s : VibState) (f : VibFrame) : Prop :=
  |f.yVelocity| > VIBRATO_VEL_THRESHOLD ∧
    flipHzEmaAfter s f ≥ (VIBRATO_FLIP_HZ_THRESHOLD : ℝ) ∧
    recentFlipOkOf s f = true

open scoped Classical

/-- `targetCents = vibratoActive ? clamp((-yVelocity) * VIBRATO_CENTS_PER_VEL, ±VIBRATO_MAX_CENTS) : 0`. -/
noncomputable def targetCentsOf (s : VibState) (f : VibFrame) : ℚ :=
  if vibratoActiveOf s f then
    max (-VIBRATO_MAX_CENTS) (min VIBRATO_MAX_CENTS ((-f.yVelocity) * VIBRATO_CENTS_PER_VEL))
  else 0

/-- The vibrato block of `processHand`: flip detection, flip-rate EMA,
vibrato gating, the low-pass filter on the target, asymmetric smoothing,
slew limiting, and the final hard cap and deadzone.  Returns the updated
vibrato state together with the emitted `pitchShift` (semitones). -/
noncomputable def processHandVibrato (s : VibState) (f : VibFrame) : VibState × ℚ :=
  let targetSemitonesRaw := targetCentsOf s f / 100
  -- Low-pass the target more when moving extremely fast.
  let tau := if |f.yVelocity| > 0.75 then VIBRATO_LP_TAU_FAST else VIBRATO_LP_TAU_BASE
  let lpAlpha := if f.dt > 0 then max 0 (min 1 (f.dt / (tau + f.dt))) else 1
  let pitchTargetLp := s.pitchTargetLp + lpAlpha * (targetSemitonesRaw - s.pitchTargetLp)
  let targetSemitones := pitchTargetLp
  let smooth :=
    if |targetSemitones| > |s.smoothedPitch| then VIBRATO_PITCH_SMOOTH_ATTACK
    else VIBRATO_PITCH_SMOOTH_RELEASE
  let next := smooth * targetSemitones + (1 - smooth) * s.smoothedPitch
  -- Slew-limit to prevent glitchy pitch jumps at extreme speeds.
  let smoothedPitch :=
    if f.dt > 0 then
      let maxDelta := VIBRATO_SLEW_SEMITONES_PER_SEC * f.dt
      s.smoothedPitch + max (-maxDelta) (min maxDelta (next - s.smoothedPitch))
    else next
  -- Hard cap and deadzone.
  let maxSemitones := VIBRATO_MAX_CENTS / 100
  let capped := max (-maxSemitones) (min maxSemitones smoothedPitch)
  let pitchShift := if |capped| < 0.0005 then 0 else capped
  ({ prevYVelocity := f.yVelocity, lastFlipMs := lastFlipMsAfter s f,
     flipHzEma := flipHzEmaAfter s f, pitchTargetLp := pitchTargetLp,
     smoothedPitch := smoothedPitch }, pitchShift)

/-! ### Sample selection (audio engine) -/

/-- Articulation layer of a catalog sample. -/
inductive ArticulationLayer
  | soft
  | medium
  | hard
deriving DecidableEq, Repr

/-- Instrument sample group (`"brass:trombone" | "strings:cello" | "strings:viola"`). -/
inductive SampleGroup
  | brassTrombone
  | stringsCello
  | stringsViola
deriving DecidableEq, Repr

/-- `group.startsWith("brass:")`. -/
def SampleGroup.isBrass : SampleGroup → Bool
  | .brassTrombone => true
  | _ => false

/-- Pitch mode banding (`"low" | "mid" | "high" | "all"`). -/
inductive PitchMode
  | low
  | mid
  | high
  | all
deriving DecidableEq, Repr

/-- A catalog entry (`SampleInfo`). -/
structure SampleInfo where
  path : String
  midiNote : ℤ
  octave : ℤ
  layer : ArticulationLayer
  group : SampleGroup
deriving DecidableEq, Repr

instance : Inhabited SampleInfo :=
  ⟨{ path := "", midiNote := 0, octave := 0, layer := .medium, group := .brassTrombone }⟩

/-- `Math.round` (round half toward positive infinity), as used for the
target MIDI note. -/
def jsRound (q : ℚ) : ℤ := ⌊q + 1 / 2⌋

/-- `Math.max(0, Math.min(1, v))`. -/
def clamp01 (v : ℚ) : ℚ := max 0 (min 1 v)

/-- `Array.from(new Set(xs)).sort((a, b) => a - b)`: the sorted list of the
distinct values. -/
def dedupSort (xs : List ℤ) : List ℤ := (xs.dedup).insertionSort (· ≤ ·)

/-- The hardcoded per-group fallback sample path used when the candidate list
is empty. -/
def fallbackPath : SampleGroup → String
  | .stringsCello => "/audio/Cello Soft/Cello softC3.wav"
  | .stringsViola => "/audio/Viola Soft/Viola Soft C4.wav"
  | .brassTrombone => "/audio/Trombone/Standard/Medium Layer/TB Med A3.wav"

/-- The brass per-layer candidate list built while loading the manifest:
`layered.length > 0 ? layered : flat` (a missing layer falls back to all
samples of the group). -/
def brassLayerCandidates (flat : List SampleInfo) (layer : ArticulationLayer) : List SampleInfo :=
  let layered := flat.filter (fun s => decide (s.layer = layer))
  if layered.isEmpty then flat else layered

/-- The brass arm of `applyPitchMode`: octave mapping (low = lowest octave,
mid = median octave, high = highest octave), applied only when the list has at
least 3 distinct octaves (`none` means "fall back to the generic split"); an
empty octave filter falls back to the whole list. -/
def applyPitchModeBrass (list : List SampleInfo) (mode : PitchMode) :
    Option (List SampleInfo) :=
  let octaves := dedupSort (list.map SampleInfo.octave)
  if octaves.length ≥ 3 then
    let lowOct := octaves.getD 0 0
    let highOct := octaves.getD (octaves.length - 1) 0
    let midOct := octaves.getD (octaves.length / 2) 0
    let targetOct :=
      if mode = PitchMode.low then lowOct
      else if mode = PitchMode.high then highOct
      else midOct
    let filtered := list.filter (fun s => decide (s.octave = targetOct))
    some (if filtered.isEmpty then list else filtered)
  else none

/-- The generic arm of `applyPitchMode`: split the distinct MIDI notes into 3
even bands and keep the requested band; an empty band filter falls back to
the whole list. -/
def applyPitchModeGeneric (list : List SampleInfo) (mode : PitchMode) : List SampleInfo :=
  let uniqueMidi := dedupSort (list.map SampleInfo.midiNote)
  if uniqueMidi.length ≤ 2 then list
  else
    let base := uniqueMidi.length / 3
    let rem := uniqueMidi.length % 3
    let lowCount := base + (if rem > 0 then 1 else 0)
    let midCount := base + (if rem > 1 then 1 else 0)
    let lowEnd := lowCount
    let midEnd := lowCount + midCount
    let lowSet := uniqueMidi.take lowEnd
    let midSet := (uniqueMidi.drop lowEnd).take (midEnd - lowEnd)
    let highSet := uniqueMidi.drop midEnd
    let allowed :=
      if mode = PitchMode.low then lowSet
      else if mode = PitchMode.high then highSet
      else midSet
    let filtered := list.filter (fun s => allowed.contains s.midiNote)
    if filtered.isEmpty then list else filtered

/-- `applyPitchMode(list, mode)` from `getSampleByPitchGroupAndLayer`
(closing over `group`): octave-based banding for brass with 3+ distinct
octaves, otherwise a 3-way even split of the distinct MIDI notes; every
filter falls back to the unfiltered list when it would be empty. -/
def applyPitchMode (group : SampleGroup) (list : List SampleInfo) (mode : PitchMode) :
    List SampleInfo :=
  if list.isEmpty then list
  else if mode = PitchMode.all then list
  else
    match (if group.isBrass then applyPitchModeBrass list mode else none) with
    | some r => r
    | none => applyPitchModeGeneric list mode

/-- The binary search of `getSampleByPitchGroupAndLayer` for the insertion
point of `targetMidi`: `lo`/`hi` walk with `mid = (lo + hi) >> 1`, breaking
with `lo = mid` on an exact match; `hi` may go to `-1`, hence lives in `ℤ`.
The first argument is fuel bounding the iteration count (each iteration
strictly shrinks `hi - lo`, so `midis.length + 1` always suffices; the
fuel-exhausted base case is unreachable at the call site). -/
def bsLoop (midis : List ℤ) (target : ℤ) : ℕ → ℕ → ℤ → ℕ
  | 0, lo, _ => lo
  | fuel + 1, lo, hi =>
    if (lo : ℤ) ≤ hi then
      let mid : ℕ := ((lo : ℤ) + hi).toNat / 2
      let m := midis.getD mid 0
      if m = target then mid
      else if m < target then bsLoop midis target fuel (mid + 1) hi
      else bsLoop midis target fuel lo ((mid : ℤ) - 1)
    else lo

/-- The binary search run to completion: `lo = 0`, `hi = length - 1`. -/
def bsearchLo (midis : List ℤ) (target : ℤ) : ℕ :=
  bsLoop midis target (midis.length + 1) 0 ((midis.length : ℤ) - 1)

/-- `while (start > 0 && candidates[start - 1].midiNote === chosenMidi) start--;`. -/
def expandLeft (midis : List ℤ) (chosen : ℤ) : ℕ → ℕ
  | 0 => 0
  | n + 1 => if midis.getD n 0 = chosen then expandLeft midis chosen n else n + 1

/-- `while (end < candidates.length - 1 && candidates[end + 1].midiNote === chosenMidi) end++;`
(fuel-bounded like `bsLoop`; `midis.length` iterations always suffice). -/
def expandRightLoop (midis : List ℤ) (chosen : ℤ) : ℕ → ℕ → ℕ
  | 0, e => e
  | fuel + 1, e =>
    if e < midis.length - 1 ∧ midis.getD (e + 1) 0 = chosen then
      expandRightLoop midis chosen fuel (e + 1)
    else e

/-- The right expansion run to completion. -/
def expandRight (midis : List ℤ) (chosen : ℤ) (e : ℕ) : ℕ :=
  expandRightLoop midis chosen midis.length e

/-- The nearest-pitch selection over the (filtered) candidate list: the target
MIDI note by linear interpolation between the minimum and maximum candidate
MIDI notes, the binary search for the insertion point, the left/right
neighbour distances, the tie break, the same-pitch range expansion, and the
random pick inside `[start..end]`. -/
def selectFromCandidates (candidates : List SampleInfo) (handY randTie randPick : ℚ) :
    String :=
  let pitchPosition := 1 - clamp01 handY
  let minMidi := (candidates.getD 0 default).midiNote
  let maxMidi := (candidates.getD (candidates.length - 1) default).midiNote
  let targetMidi := jsRound ((minMidi : ℚ) + pitchPosition * ((maxMidi - minMidi : ℤ) : ℚ))
  let midis := candidates.map SampleInfo.midiNote
  let lo := bsearchLo midis targetMidi
  let rightIdx := min (max lo 0) (candidates.length - 1)
  let leftIdx := rightIdx - 1
  let leftMidi := (candidates.getD leftIdx default).midiNote
  let rightMidi := (candidates.getD rightIdx default).midiNote
  let leftDist := |leftMidi - targetMidi|
  let rightDist := |rightMidi - targetMidi|
  let chosenMidi :=
    if leftDist < rightDist then leftMidi
    else if rightDist < leftDist then rightMidi
    else if randTie < 0.5 then leftMidi else rightMidi
  let start := expandLeft midis chosenMidi leftIdx
  let stop := expandRight midis chosenMidi rightIdx
  let pickIdx := start + (⌊randPick * ((stop - start + 1 : ℕ) : ℚ)⌋).toNat
  (candidates.getD pickIdx default).path

/-- `getSampleByPitchGroupAndLayer(handY, group, layer, pitchMode)`.
`candidates0` is the group's flattened, MIDI-sorted candidate list from the
loaded manifest (for brass, `brassLayerCandidates` of the flat group list for
the requested layer; for strings, the flat group list; `?? []` when the
manifest is missing).  The two `Math.random()` draws are passed explicitly:
`randTie` breaks exact-distance ties, `randPick` picks inside the final
`[start..end]` index range. -/
def getSampleByPitchGroupAndLayer (candidates0 : List SampleInfo) (handY : ℚ)
    (group : SampleGroup) (pitchMode : PitchMode) (randTie randPick : ℚ) : String :=
  if candidates0.isEmpty then fallbackPath group
  else selectFromCandidates (applyPitchMode group candidates0 pitchMode) handY randTie randPick

/-! ### Audio engine state and the attack/release entry points -/

/-- `PlayState = "idle" | "attack" | "sustain" | "release"`. -/
inductive PlayState
  | idle
  | attack
  | sustain
  | release
deriving DecidableEq, Repr

/-- The crossfade lane (`activeSource ∈ {1, 2}`). -/
inductive Lane
  | one
  | two
deriving DecidableEq, Repr

/-- The `AudioEngine` record, restricted to the fields read or written by
`triggerAttack`/`triggerRelease`.  Audio nodes are modelled by identifiers:
`sourceNode`/`sourceNode2` hold the id of the tracked
`AudioBufferSourceNode` on each crossfade lane (`none` = `null`);
`sourceGain1`/`sourceGain2` hold each lane's gain value (`none` = `null`
node); `hasBuffer` models `engine.buffer !== null`.  `nextSourceId` is the
monotone id supply for created sources. -/
structure Engine where
  isRunning : Bool
  isLoaded : Bool
  hasBuffer : Bool
  playState : PlayState
  useASR : Bool
  loopStart : ℚ
  loopEnd : ℚ
  sourceNode : Option ℕ
  sourceNode2 : Option ℕ
  sourceGain1 : Option ℚ
  sourceGain2 : Option ℚ
  activeSource : Lane
  loopSchedulerId : Option ℕ
  nextSourceId : ℕ
deriving DecidableEq, Repr

/-- The synchronous side effects of one engine call: how many source nodes
were created and how many timers (`setTimeout`) were scheduled. -/
structure Effects where
  sourcesCreated : ℕ
  timersScheduled : ℕ
deriving DecidableEq, Repr

/-- No side effects. -/
def noEffects : Effects := ⟨0, 0⟩

/-- `engine.sourceGainN ? engine.sourceGainN.gain.value : 0`. -/
def laneGain (g : Option ℚ) : ℚ := g.getD 0

/-- `createSource(engine, ...)`: allocates a fresh source id. -/
def createSourceOn (e : Engine) : Engine × ℕ :=
  ({ e with nextSourceId := e.nextSourceId + 1 }, e.nextSourceId)

/-- `stopCurrentSound(engine, fade)`: cancels any scheduled loop, ramps both
lane gains to 0 (modelled by their post-ramp value), and schedules one timer
that will later stop the source nodes. -/
def stopCurrentSoundFade (e : Engine) : Engine × Effects :=
  let e := { e with loopSchedulerId := none,
                    sourceGain1 := e.sourceGain1.map (fun _ => 0),
                    sourceGain2 := e.sourceGain2.map (fun _ => 0) }
  (e, ⟨0, 1⟩)

/-- The tail of `triggerAttack` that actually starts playback once the state
checks have passed: the ASR branch (reset lane gains, start a source at
offset 0 on lane 1, enter `attack`, schedule the sustain transition) or the
one-shot branch (start a source, enter `sustain`, register `onended`). -/
def startAttackPlayback (e : Engine) : Engine × Effects :=
  if e.useASR then
    let e := { e with sourceGain1 := e.sourceGain1.map (fun _ => 1),
                      sourceGain2 := e.sourceGain2.map (fun _ => 0),
                      activeSource := Lane.one }
    let c := createSourceOn e
    ({ c.1 with sourceNode := some c.2, playState := PlayState.attack }, ⟨1, 1⟩)
  else
    let e := { e with sourceGain1 := e.sourceGain1.map (fun _ => 1) }
    let c := createSourceOn e
    ({ c.1 with sourceNode := some c.2, playState := PlayState.sustain }, ⟨1, 0⟩)

/-- `triggerAttack(engine)`: the readiness guard, the retrigger-during-release
path, the stuck-state self-healing checks, and the playback start.  Gain
automation is modelled by the post-ramp values; timer callbacks are counted,
not executed. -/
def triggerAttack (e : Engine) : Engine × Effects :=
  if ¬(e.isRunning = true ∧ e.isLoaded = true ∧ e.hasBuffer = true ∧ e.sourceGain1.isSome) then
    (e, noEffects)
  else if e.playState = PlayState.release ∧ e.useASR = true ∧ e.sourceGain2.isSome then
    -- Retrigger with a short overlap crossfade against the dying release tail.
    let e := { e with loopSchedulerId := none }
    let oldAttackExists := (if e.activeSource = Lane.one then e.sourceNode else e.sourceNode2).isSome
    let releaseSourceExists := (if e.activeSource = Lane.one then e.sourceNode2 else e.sourceNode).isSome
    -- Post-ramp lane gains: attack lane to 1, release lane to 0.
    let e :=
      if e.activeSource = Lane.one then
        { e with sourceGain1 := e.sourceGain1.map (fun _ => 1),
                 sourceGain2 := e.sourceGain2.map (fun _ => 0) }
      else
        { e with sourceGain2 := e.sourceGain2.map (fun _ => 1),
                 sourceGain1 := e.sourceGain1.map (fun _ => 0) }
    let c := createSourceOn e
    let e :=
      if e.activeSource = Lane.one then { c.1 with sourceNode := some c.2 }
      else { c.1 with sourceNode2 := some c.2 }
    let e := { e with playState := PlayState.attack }
    (e, ⟨1, 1 + (if oldAttackExists then 1 else 0) + (if releaseSourceExists then 1 else 0)⟩)
  else
    -- Stuck-state checks; `none` means "Already playing, ignoring attack".
    let checked : Option (Engine × Effects) :=
      if e.playState = PlayState.idle then some (e, noEffects)
      else if e.sourceNode.isNone ∧ e.sourceNode2.isNone then
        some ({ e with playState := PlayState.idle }, noEffects)
      else if laneGain e.sourceGain1 < 0.001 ∧ laneGain e.sourceGain2 < 0.001 then
        let sc := stopCurrentSoundFade e
        some ({ sc.1 with playState := PlayState.idle }, sc.2)
      else none
    match checked with
    | none => (e, noEffects)
    | some (e2, eff) =>
      let st := startAttackPlayback e2
      (st.1, ⟨eff.sourcesCreated + st.2.sourcesCreated, eff.timersScheduled + st.2.timersScheduled⟩)

/-- `triggerRelease(engine)`: the readiness guard, the idle/release no-op
guard, the ASR crossfade-to-release-tail path, and the one-shot fade-out
path. -/
def triggerRelease (e : Engine) : Engine × Effects :=
  if ¬(e.isRunning = true ∧ e.hasBuffer = true) then (e, noEffects)
  else if e.playState = PlayState.idle ∨ e.playState = PlayState.release then (e, noEffects)
  else if e.useASR = true ∧ e.sourceGain1.isSome ∧ e.sourceGain2.isSome then
    let e := { e with loopSchedulerId := none, playState := PlayState.release }
    let c := createSourceOn e
    -- The release source is tracked on the inactive lane; post-ramp gains:
    -- current lane to 0, release lane to 1; one cleanup timer.
    let e :=
      if e.activeSource = Lane.one then
        { c.1 with sourceNode2 := some c.2,
                   sourceGain1 := c.1.sourceGain1.map (fun _ => 0),
                   sourceGain2 := c.1.sourceGain2.map (fun _ => 1) }
      else
        { c.1 with sourceNode := some c.2,
                   sourceGain2 := c.1.sourceGain2.map (fun _ => 0),
                   sourceGain1 := c.1.sourceGain1.map (fun _ => 1) }
    (e, ⟨1, 1⟩)
  else
    -- One-shot mode: fade out, reset to idle, schedule the sample reload.
    let sc := stopCurrentSoundFade e
    let e := { sc.1 with playState := PlayState.idle, sourceNode := none, sourceNode2 := none }
    (e, ⟨0, sc.2.timersScheduled + 1⟩)

/-! ### Sample loading with quality retries (loadNewSample) -/

/-- `ASR_MIN_DURATION = 0.5`. -/
def ASR_MIN_DURATION : ℚ := 0.5

/-- `MAX_SAMPLE_RETRIES = 5`. -/
def MAX_SAMPLE_RETRIES : ℕ := 5

/-- The outcome of one selection + decode + loop-analysis attempt: either the
fetch/decode threw, or it produced a buffer of the given duration whose
`findOptimalLoopPoints` result had the given loop points and acceptability.
(The random sample selection, the network fetch, and the decode are external;
the loop analysis itself is modelled separately as `findOptimalLoopPoints`.) -/
structure DecodedSample where
  samplePath : String
  duration : ℚ
  optLoopStart : ℚ
  optLoopEnd : ℚ
  optAcceptable : Bool
deriving DecidableEq, Repr

/-- One attempt's result. -/
inductive AttemptOutcome
  | loadFail (samplePath : String)
  | decoded (d : DecodedSample)

/-- The engine fields written by `loadNewSample`.  `poorQualityWarned` records
the `console.warn` emitted when an unacceptable sample is accepted after the
retry budget is exhausted. -/
structure LoadState where
  currentSample : Option String
  isLoaded : Bool
  useASR : Bool
  loopStart : ℚ
  loopEnd : ℚ
  poorQualityWarned : Bool
deriving DecidableEq, Repr

/-- `loadNewSample(engine, retryCount)`, with the attempt outcomes supplied by
an oracle indexed by `retryCount`: rejects unacceptable ASR loop points and
load failures by recursing with `retryCount + 1` while
`retryCount < MAX_SAMPLE_RETRIES`, otherwise accepts (warning on poor
quality); short samples load in one-shot mode unconditionally. -/
def loadNewSample (oracle : ℕ → AttemptOutcome) (retryCount : ℕ) (e : LoadState) : LoadState :=
  match oracle retryCount with
  | .loadFail p =>
    let e := { e with currentSample := some p }
    if h : retryCount < MAX_SAMPLE_RETRIES then loadNewSample oracle (retryCount + 1) e
    else e
  | .decoded d =>
    let e := { e with currentSample := some d.samplePath }
    if d.duration ≥ ASR_MIN_DURATION then
      if h : d.optAcceptable = false ∧ retryCount < MAX_SAMPLE_RETRIES then
        loadNewSample oracle (retryCount + 1) e
      else
        { e with useASR := true, loopStart := d.optLoopStart, loopEnd := d.optLoopEnd,
                 isLoaded := true, poorQualityWarned := d.optAcceptable = false }
    else
      { e with useASR := false, loopStart := 0, loopEnd := d.duration,
               isLoaded := true, poorQualityWarned := false }
termination_by MAX_SAMPLE_RETRIES + 1 - retryCount
decreasing_by
  all_goals omega

/-! ### Loop-point search (findOptimalLoopPoints) -/

/-- `LOOP_START_PERCENT = 0.30`. -/
def LOOP_START_PERCENT : ℚ := 0.30

/-- `LOOP_END_PERCENT = 0.70`. -/
def LOOP_END_PERCENT : ℚ := 0.70

/-- `LOOP_SEARCH_WINDOW = 0.15` (seconds). -/
def LOOP_SEARCH_WINDOW : ℚ := 0.15

/-- `RMS_WINDOW = 0.03` (seconds). -/
def RMS_WINDOW : ℚ := 0.03

/-- `MAX_RMS_DIFF = 0.05`. -/
def MAX_RMS_DIFF : ℚ := 0.05

/-- `MIN_LOOP_LENGTH = 0.4` (seconds). -/
def MIN_LOOP_LENGTH : ℚ := 0.4

/-- `MAX_LOOP_LENGTH = 4.0` (seconds). -/
def MAX_LOOP_LENGTH : ℚ := 4.0

/-- A decoded audio buffer: first-channel sample data and sample rate. -/
structure BufferQ where
  channelData : List ℚ
  sampleRate : ℕ

/-- `buffer.duration = length / sampleRate`. -/
def BufferQ.duration (b : BufferQ) : ℚ := (b.channelData.length : ℚ) / (b.sampleRate : ℚ)

/-- `Math.floor` of a nonnegative quantity, as a sample index. -/
def sampleIdx (q : ℚ) : ℕ := (⌊q⌋).toNat

/-- `calculateRMS(channelData, centerSample, windowSamples)`: RMS amplitude
over the window `[centerSample - windowSamples/2, centerSample + windowSamples/2]`
clamped to the buffer. -/
noncomputable def calculateRMS (channelData : List ℚ) (centerSample windowSamples : ℕ) : ℝ :=
  let halfWindow := windowSamples / 2
  let start := centerSample - halfWindow
  let stop := min (channelData.length - 1) (centerSample + halfWindow)
  let idxs := List.range' start (stop + 1 - start)
  let sumSquares : ℚ := (idxs.map (fun i => channelData.getD i 0 * channelData.getD i 0)).sum
  Real.sqrt ((sumSquares : ℝ) / (idxs.length : ℝ))

/-- `Math.floor(target * sampleRate)`: a target time as a sample index.  Used
for both `targetStartSample` and `targetEndSample`. -/
def targetSampleOf (b : BufferQ) (target : ℚ) : ℕ := sampleIdx (target * (b.sampleRate : ℚ))

/-- `searchWindowSamples = Math.floor(LOOP_SEARCH_WINDOW * sampleRate)`. -/
def searchWindowSamplesOf (b : BufferQ) : ℕ := sampleIdx (LOOP_SEARCH_WINDOW * (b.sampleRate : ℚ))

/-- `rmsWindowSamples = Math.floor(RMS_WINDOW * sampleRate)`. -/
def rmsWindowSamplesOf (b : BufferQ) : ℕ := sampleIdx (RMS_WINDOW * (b.sampleRate : ℚ))

/-- `step = Math.floor(sampleRate * 0.002)`: the 2ms candidate step. -/
def stepOf (b : BufferQ) : ℕ := sampleIdx ((b.sampleRate : ℚ) * 0.002)

/-- `Math.max(rmsWindowSamples, targetSample - searchWindowSamples)`: the lower
end of a candidate search range (used for both the start and the end grid). -/
def searchMinOf (b : BufferQ) (target : ℚ) : ℕ :=
  max (rmsWindowSamplesOf b) (targetSampleOf b target - searchWindowSamplesOf b)

/-- `Math.min(channelData.length - rmsWindowSamples - 1, targetSample + searchWindowSamples)`. -/
def searchMaxOf (b : BufferQ) (target : ℚ) : ℕ :=
  min (b.channelData.length - rmsWindowSamplesOf b - 1) (targetSampleOf b target + searchWindowSamplesOf b)

/-- The candidate sample indices `lo, lo + step, ...` up to `hi`
(`for (let s = lo; s <= hi; s += step)`). -/
def candidateSamples (lo hi step : ℕ) : List ℕ :=
  if step = 0 then []
  else if hi < lo then []
  else (List.range ((hi - lo) / step + 1)).map (fun i => lo + i * step)

/-- A scored candidate `{ sample, rms }`. -/
structure RMSCandidate where
  sample : ℕ
  rms : ℝ

/-- The scored candidate list for one target (the source builds
`startCandidates` and `endCandidates` with this identical computation). -/
noncomputable def rmsCandidatesOf (b : BufferQ) (target : ℚ) : List RMSCandidate :=
  (candidateSamples (searchMinOf b target) (searchMaxOf b target) (stepOf b)).map
    (fun s => ⟨s, calculateRMS b.channelData s (rmsWindowSamplesOf b)⟩)

/-- All (start, end) candidate pairs, in the source's nested-loop order. -/
noncomputable def candidatePairsOf (b : BufferQ) (targetStart targetEnd : ℚ) :
    List (RMSCandidate × RMSCandidate) :=
  (rmsCandidatesOf b targetStart).flatMap (fun sc => (rmsCandidatesOf b targetEnd).map (fun ec => (sc, ec)))

/-- The running best `{ startSample, endSample, rmsDiff, startRMS, endRMS }`. -/
structure BestMatch where
  startSample : ℕ
  endSample : ℕ
  rmsDiff : ℝ
  startRMS : ℝ
  endRMS : ℝ

/-- One iteration of the best-match scan: strictly smaller `rmsDiff` wins
(ties keep the earlier pair).  `none` models the initial
`rmsDiff: Infinity` sentinel, which any first pair beats. -/
noncomputable def updateBest (b : Option BestMatch) (p : RMSCandidate × RMSCandidate) :
    Option BestMatch :=
  match b with
  | none => some ⟨p.1.sample, p.2.sample, |p.1.rms - p.2.rms|, p.1.rms, p.2.rms⟩
  | some bb =>
    if |p.1.rms - p.2.rms| < bb.rmsDiff then
      some ⟨p.1.sample, p.2.sample, |p.1.rms - p.2.rms|, p.1.rms, p.2.rms⟩
    else some bb

/-- The final best match.  When both candidate grids are empty the source
keeps the initial sentinel `{ startSample: targetStartSample, endSample:
targetEndSample, rmsDiff: Infinity, startRMS: 0, endRMS: 0 }`; `Infinity` is
modelled by the value 1, which like `Infinity` exceeds `MAX_RMS_DIFF`, so the
(un)acceptability of this unreachable-in-practice case is preserved. -/
noncomputable def bestMatchOf (b : BufferQ) (targetStart targetEnd : ℚ) : BestMatch :=
  ((candidatePairsOf b targetStart targetEnd).foldl updateBest none).getD
    ⟨targetSampleOf b targetStart, targetSampleOf b targetEnd, 1, 0, 0⟩

/-- The `LoopPointResult` record of the engine's `findOptimalLoopPoints`. -/
structure LoopPointResult where
  loopStart : ℚ
  loopEnd : ℚ
  rmsDiff : ℝ
  loopLength : ℚ
  isAcceptable : Prop

/-- `findOptimalLoopPoints(buffer, targetStart, targetEnd)`: scan all candidate
pairs for the minimum RMS difference, convert back to seconds, normalize the
difference by the pair's average RMS, and classify against the quality
thresholds. -/
noncomputable def findOptimalLoopPoints (b : BufferQ) (targetStart targetEnd : ℚ) :
    LoopPointResult :=
  let best := bestMatchOf b targetStart targetEnd
  let loopStart : ℚ := (best.startSample : ℚ) / (b.sampleRate : ℚ)
  let loopEnd : ℚ := (best.endSample : ℚ) / (b.sampleRate : ℚ)
  let loopLength := loopEnd - loopStart
  let avgRMS := (best.startRMS + best.endRMS) / 2
  let normalizedRmsDiff := if 0 < avgRMS then best.rmsDiff / avgRMS else best.rmsDiff
  { loopStart := loopStart, loopEnd := loopEnd, rmsDiff := normalizedRmsDiff,
    loopLength := loopLength,
    isAcceptable := normalizedRmsDiff ≤ (MAX_RMS_DIFF : ℝ) ∧
      MIN_LOOP_LENGTH ≤ loopLength ∧ loopLength ≤ MAX_LOOP_LENGTH }

/-! ### Traces of the gesture state machine -/

/-- Process a sequence of detected frames. -/
def runGesture (s : HandState) (fs : List GestureFrame) : HandState :=
  fs.foldl processHandGesture s

/-- One step of the open-candidate contiguous-hold accumulator: the running
total grows by this frame's `dtMs` while the frame is an open-candidate frame
and restarts at 0 otherwise (the physical time for which the open candidate
has held continuously up to and including this frame). -/
def openRunStep (p : HandState × ℚ) (f : GestureFrame) : HandState × ℚ :=
  (processHandGesture p.1 f, if openCandAt p.1 f then p.2 + dtMsOf p.1 f else 0)

/-- One step of the closed-candidate contiguous-hold accumulator. -/
def closedRunStep (p : HandState × ℚ) (f : GestureFrame) : HandState × ℚ :=
  (processHandGesture p.1 f, if closedCandAt p.1 f then p.2 + dtMsOf p.1 f else 0)

/-- The milliseconds for which the open candidate has held continuously at the
end of the frame sequence (reset to 0 by any non-candidate frame). -/
def openRunMs (s : HandState) (fs : List GestureFrame) : ℚ :=
  (fs.foldl openRunStep (s, 0)).2

/-- The milliseconds for which the closed candidate has held continuously at
the end of the frame sequence. -/
def closedRunMs (s : HandState) (fs : List GestureFrame) : ℚ :=
  (fs.foldl closedRunStep (s, 0)).2

/-- The per-frame `dtMs` values along a trace. -/
def frameDtMsList : HandState → List GestureFrame → List ℚ
  | _, [] => []
  | s, f :: rest => dtMsOf s f :: frameDtMsList (processHandGesture s f) rest

/-- An attack transition is honored on this frame (`wasPlaying` flips to
true, via either the retrigger path or the idle attack path). -/
def attackFired (s : HandState) (f : GestureFrame) : Prop :=
  s.wasPlaying = false ∧ (processHandGesture s f).wasPlaying = true

/-- A release transition is honored on this frame (`isInRelease` flips to
true). -/
def releaseFired (s : HandState) (f : GestureFrame) : Prop :=
  s.isInRelease = false ∧ (processHandGesture s f).isInRelease = true

/-- The `wasPlaying`/`isInRelease` mutual-exclusivity invariant. -/
def FlagsOK (s : HandState) : Prop :=
  ¬(s.wasPlaying = true ∧ s.isInRelease = true)

/-! ### Concrete test vectors -/

/-- A detected frame with the hand measured half open (openness 0.5),
sensitivity 1, at the given video timestamp. -/
def openFrameAt (t : ℚ) : GestureFrame :=
  { timestamp := t, wallNow := t, sensitivity := 1,
    measuredOpenness := some 0.5, computedParams := defaultParams }

/-- A catalog entry for the pitch-selection test vector. -/
def specSample (p : String) (m : ℤ) : SampleInfo :=
  { path := p, midiNote := m, octave := 0, layer := .soft, group := .stringsCello }

/-- The spec's pitch-selection catalog: one sample each at MIDI notes
48, 52, 55, 60, 64 (sorted). -/
def specCatalog : List SampleInfo :=
  [specSample "/audio/test/48.wav" 48, specSample "/audio/test/52.wav" 52,
   specSample "/audio/test/55.wav" 55, specSample "/audio/test/60.wav" 60,
   specSample "/audio/test/64.wav" 64]

/-- An engine whose `playState` claims sustain while no source node is
tracked on either lane (the stuck state the source self-heals from). -/
def stuckSustainEngine : Engine :=
  { isRunning := true, isLoaded := true, hasBuffer := true, playState := .sustain,
    useASR := true, loopStart := 1, loopEnd := 2, sourceNode := none, sourceNode2 := none,
    sourceGain1 := some 1, sourceGain2 := some 0, activeSource := .one,
    loopSchedulerId := none, nextSourceId := 3 }

/-- A genuinely sustaining engine: a tracked source on lane 1 at full gain and
a pending loop timer. -/
def sustainingEngine : Engine :=
  { stuckSustainEngine with sourceNode := some 1, loopSchedulerId := some 2 }

/-- An idle engine. -/
def idleEngine : Engine :=
  { stuckSustainEngine with playState := .idle }

/-- A hand state mid-note: playing, last seen at t = 1000ms. -/
def playingHandState : HandState :=
  { createHandState with
    wasPlaying := true
    lastSeenMs := 1000
    lastParams := { pitchShift := 0.01, gain := 0.8, filterCutoff := 0.6,
                    delayTime := 0.4, feedback := 0.5, reverbMix := 0.2, reverbDecay := 2 } }

/-- A lost-hand frame at the given timestamp (not forced silent). -/
def lostFrameAt (t : ℚ) : LostFrame :=
  { timestamp := t, wallNow := t, forcedSilent := false, prevPitchShift := 0.01 }

/-- A vibrato state oscillating fast: moving up at 0.5 units/s on the previous
frame, a flip 5ms ago, flip-rate estimate 6Hz. -/
def wVibState : VibState :=
  { prevYVelocity := 0.5, lastFlipMs := 100, flipHzEma := 6, pitchTargetLp := 0,
    smoothedPitch := 0 }

/-- A vibrato frame reversing direction at 0.5 units/s. -/
def wVibFrame : VibFrame :=
  { yVelocity := -0.5, dt := 0.01, timestamp := 105 }

/-- A family of 1-second ASR decodes whose loop points are never acceptable. -/
def allPoorDs : ℕ → DecodedSample := fun i =>
  { samplePath := "poor" ++ toString i, duration := 1,
    optLoopStart := 0.3, optLoopEnd := 0.7, optAcceptable := false }

/-- An attempt oracle on which every selection decodes to a 1-second ASR
sample whose loop points are never acceptable. -/
def allPoorOracle : ℕ → AttemptOutcome := fun i => .decoded (allPoorDs i)

/-- A fresh engine load state. -/
def freshLoadState : LoadState :=
  { currentSample := none, isLoaded := false, useASR := false, loopStart := 0, loopEnd := 0,
    poorQualityWarned := false }

/-- A constant-amplitude test buffer: 100 samples of value 1 at 500Hz
(0.2 seconds). -/
def wBuffer : BufferQ := { channelData := List.replicate 100 1, sampleRate := 500 }

/-- The 30% loop-start target of the test buffer. -/
def wTs : ℚ := LOOP_START_PERCENT * wBuffer.duration

/-- The 70% loop-end target of the test buffer. -/
def wTe : ℚ := LOOP_END_PERCENT * wBuffer.duration

/-- The first (start, end) candidate pair of the test buffer's search grids. -/
noncomputable def wPair : RMSCandidate × RMSCandidate :=
  (⟨searchMinOf wBuffer wTs, calculateRMS wBuffer.channelData (searchMinOf wBuffer wTs) (rmsWindowSamplesOf wBuffer)⟩,
   ⟨searchMinOf wBuffer wTe, calculateRMS wBuffer.channelData (searchMinOf wBuffer wTe) (rmsWindowSamplesOf wBuffer)⟩)

/-! ## Theorems -/

set_option allowUnsafeReducibility true
attribute [local semireducible] Rat.mul Rat.add Rat.div Rat.inv Rat.sub Rat.neg Rat.ofScientific

/-- C7: on every frame, the hand is an open candidate exactly when its
smoothed raw-scale openness exceeds 0.12 and the sensitivity-scaled closed
test (openness divided by the clamped sensitivity multiplier below 0.09) does
not hold; it is a closed candidate exactly when the closed test holds and the
open test does not; and at most one of the two candidates holds. -/
theorem C7_candidates (openness sensitivity : ℚ) :
    (openCandidateOf openness sensitivity = true ↔
      ((0.12 : ℚ) < openness ∧ ¬ openness / max 1 sensitivity < (0.09 : ℚ))) ∧
    (closedCandidateOf openness sensitivity = true ↔
      (openness / max 1 sensitivity < (0.09 : ℚ) ∧ ¬ (0.12 : ℚ) < openness)) ∧
    ¬(openCandidateOf openness sensitivity = true ∧
      closedCandidateOf openness sensitivity = true) := by
  simp only [openCandidateOf, closedCandidateOf, isHandOpenRawOf, isFistClosedRawOf,
    closedOpennessOf, HAND_OPEN_THRESHOLD, FIST_CLOSED_THRESHOLD, Bool.and_eq_true,
    Bool.not_eq_true', decide_eq_true_eq, decide_eq_false_iff_not, gt_iff_lt]
  tauto

/-- C7 witness: at smoothed openness 0.2 with sensitivity 1 the hand is an
open candidate, and the candidates are mutually exclusive there. -/
theorem C7_candidates_witness :
    openCandidateOf 0.2 1 = true ∧
    ¬(openCandidateOf 0.2 1 = true ∧ closedCandidateOf 0.2 1 = true) :=
  ⟨by decide, (C7_candidates 0.2 1).2.2⟩

/-- C4 (code divergence): for the catalog with MIDI notes [48, 52, 55, 60, 64]
and hand Y 0.375 the interpolated target MIDI is 58, whose strictly nearest
candidate pitch is 60 — yet the selector is not deterministic there: the
random pick range is seeded with `leftIdx` even when the chosen pitch is the
right neighbour, so pick draw 0.25 returns the pitch-55 sample while draw
0.75 returns the pitch-60 sample. -/
theorem C4_nearest_pick_not_deterministic :
    jsRound ((48 : ℚ) + (1 - clamp01 (3/8)) * ((64 - 48 : ℤ) : ℚ)) = 58 ∧
    (|(60 : ℤ) - 58| < |(55 : ℤ) - 58|) ∧
    getSampleByPitchGroupAndLayer specCatalog (3/8) .stringsCello .all (1/2) (1/4) =
      "/audio/test/55.wav" ∧
    getSampleByPitchGroupAndLayer specCatalog (3/8) .stringsCello .all (1/2) (3/4) =
      "/audio/test/60.wav" :=
  ⟨by decide, by decide, by decide, by decide⟩

/-- C6 counterexample: on the reachable stuck state whose `playState` claims
sustain while no source node is tracked (the state §7's self-healing is for),
`triggerAttack` is not a no-op: it resets to idle, starts a fresh attack
(creating a source node and scheduling a timer), and changes the engine
state. -/
theorem C6_attack_sustain_counterexample :
    stuckSustainEngine.playState = PlayState.sustain ∧
    (triggerAttack stuckSustainEngine).1 ≠ stuckSustainEngine ∧
    (triggerAttack stuckSustainEngine).1.playState = PlayState.attack ∧
    (triggerAttack stuckSustainEngine).2.sourcesCreated = 1 ∧
    (triggerAttack stuckSustainEngine).2.timersScheduled = 1 := by decide

/-- C6 amended: `triggerRelease` while idle (or already in release) never
changes the engine and creates no sources and no timers; `triggerAttack`
while sustaining is likewise a no-op provided a source node is actually
tracked and the crossfade lanes are not both silent (otherwise the source
deliberately self-heals: it resets to idle and starts a fresh attack). -/
theorem C6_idempotence_amended (e : Engine) :
    ((e.playState = PlayState.idle ∨ e.playState = PlayState.release) →
      triggerRelease e = (e, noEffects)) ∧
    (e.playState = PlayState.sustain →
      (e.sourceNode.isSome ∨ e.sourceNode2.isSome) →
      ¬(laneGain e.sourceGain1 < 0.001 ∧ laneGain e.sourceGain2 < 0.001) →
      triggerAttack e = (e, noEffects)) := by
  constructor
  · intro h
    unfold triggerRelease
    split_ifs <;> rfl
  · intro hs hsrc hgain
    unfold triggerAttack
    rcases Classical.em
      (e.isRunning = true ∧ e.isLoaded = true ∧ e.hasBuffer = true ∧ e.sourceGain1.isSome) with
      hready | hready
    · rw [if_neg (by tauto)]
      rw [if_neg (by simp [hs])]
      have c1 : ¬ e.playState = PlayState.idle := by simp [hs]
      have c2 : ¬ (e.sourceNode.isNone ∧ e.sourceNode2.isNone) := by
        rcases hsrc with h | h <;> simp [Option.isSome_iff_ne_none] at h <;> simp [h]
      rw [if_neg c1, if_neg c2, if_neg hgain]
    · rw [if_pos (by tauto)]

/-- C6 witness: releasing an idle engine and attacking a genuinely sustaining
engine (tracked source, audible lane) are both exact no-ops. -/
theorem C6_idempotence_amended_witness :
    triggerRelease idleEngine = (idleEngine, noEffects) ∧
    triggerAttack sustainingEngine = (sustainingEngine, noEffects) :=
  ⟨(C6_idempotence_amended idleEngine).1 (Or.inl (by decide)),
   (C6_idempotence_amended sustainingEngine).2 (by decide) (by decide) (by decide)⟩

/-- Helper: `currentReverbFor` never touches the note-lifecycle flags. -/
lemma currentReverbFor_preserves (s : HandState) (t : ℚ) :
    (currentReverbFor s t).1.wasPlaying = s.wasPlaying ∧
    (currentReverbFor s t).1.isInRelease = s.isInRelease := by
  unfold currentReverbFor
  cases s.reverbHold with
  | none => exact ⟨rfl, rfl⟩
  | some h =>
    by_cases hc : max 0 (1 - max 0 ((t - h.startMs) / 1000) / max 0.001 h.decay) ≤ 0.001 <;>
      simp [hc]

/-- C3: for a frame on which a playing hand is undetected, with time since
last seen within the 600ms grace window the previously computed params are
reapplied unchanged and the state is untouched; beyond grace but within the
3000ms maximum hold the held params are reapplied with `delayTime` times 0.9
and `feedback` times 0.98 while `gain` is preserved (and stored back, so the
decay compounds per frame); and past 3000ms the note is forced into
release. -/
theorem C3_dropout_policy (s : HandState) (f : LostFrame)
    (hforced : f.forcedSilent = false) (hplay : s.wasPlaying = true)
    (hseen : 0 < s.lastSeenMs) :
    (f.timestamp - s.lastSeenMs ≤ 600 → handleLostHand s f = (s, s.lastParams)) ∧
    (600 < f.timestamp - s.lastSeenMs → f.timestamp - s.lastSeenMs ≤ 3000 →
      (handleLostHand s f).2 = { s.lastParams with
          delayTime := s.lastParams.delayTime * 0.9,
          feedback := s.lastParams.feedback * 0.98 } ∧
      (handleLostHand s f).2.gain = s.lastParams.gain ∧
      (handleLostHand s f).1 = { s with lastParams := (handleLostHand s f).2 }) ∧
    (3000 < f.timestamp - s.lastSeenMs →
      (handleLostHand s f).1.wasPlaying = false ∧
      (handleLostHand s f).1.isInRelease = true) := by
  have hforced2 : ¬ (f.forcedSilent = true) := by simp [hforced]
  refine ⟨fun h1 => ?_, fun h1 h2 => ?_, fun h1 => ?_⟩
  · unfold handleLostHand
    rw [if_neg hforced2]
    have hg : (s.wasPlaying && (decide (s.lastSeenMs > 0) &&
        decide (f.timestamp - s.lastSeenMs ≤ TRACKING_LOSS_GRACE_MS))) = true := by
      simp [hplay, hseen, TRACKING_LOSS_GRACE_MS]
      linarith
    rw [if_pos hg]
  · unfold handleLostHand
    rw [if_neg hforced2]
    have hg : ¬ ((s.wasPlaying && (decide (s.lastSeenMs > 0) &&
        decide (f.timestamp - s.lastSeenMs ≤ TRACKING_LOSS_GRACE_MS))) = true) := by
      simp [hplay, hseen, TRACKING_LOSS_GRACE_MS]
      linarith
    have hh : (s.wasPlaying && (decide (s.lastSeenMs > 0) &&
        decide (f.timestamp - s.lastSeenMs ≤ TRACKING_LOSS_MAX_HOLD_MS))) = true := by
      simp [hplay, hseen, TRACKING_LOSS_MAX_HOLD_MS]
      linarith
    rw [if_neg hg, if_pos hh]
    exact ⟨rfl, rfl, rfl⟩
  · unfold handleLostHand
    rw [if_neg hforced2]
    have hg : ¬ ((s.wasPlaying && (decide (s.lastSeenMs > 0) &&
        decide (f.timestamp - s.lastSeenMs ≤ TRACKING_LOSS_GRACE_MS))) = true) := by
      simp [hplay, hseen, TRACKING_LOSS_GRACE_MS]
      linarith
    have hh : ¬ ((s.wasPlaying && (decide (s.lastSeenMs > 0) &&
        decide (f.timestamp - s.lastSeenMs ≤ TRACKING_LOSS_MAX_HOLD_MS))) = true) := by
      simp [hplay, hseen, TRACKING_LOSS_MAX_HOLD_MS]
      linarith
    rw [if_neg hg, if_neg hh, if_pos hplay]
    rw [(currentReverbFor_preserves _ _).1, (currentReverbFor_preserves _ _).2]
    simp only [RELEASE_TIMEOUT_MS]
    norm_num

/-- C3 witness: a playing hand last seen at t = 1000 is frozen at t = 1400
(within grace) and is forced into release at t = 5000 (past the maximum
hold). -/
theorem C3_dropout_policy_witness :
    handleLostHand playingHandState (lostFrameAt 1400) =
      (playingHandState, playingHandState.lastParams) ∧
    (handleLostHand playingHandState (lostFrameAt 5000)).1.wasPlaying = false ∧
    (handleLostHand playingHandState (lostFrameAt 5000)).1.isInRelease = true :=
  ⟨(C3_dropout_policy playingHandState (lostFrameAt 1400) rfl rfl (by decide)).1 (by decide),
   (C3_dropout_policy playingHandState (lostFrameAt 5000) rfl rfl (by decide)).2.2 (by decide)⟩

/-- Helper: the retrigger block preserves flag mutual exclusivity. -/
lemma retriggerBlock_flagsOK (s : HandState) (f : GestureFrame) (oc : Bool) (h : FlagsOK s) :
    FlagsOK (retriggerBlock s f oc) := by
  unfold FlagsOK at *
  simp only [retriggerBlock]
  split_ifs <;> simp_all [applyAttack]

/-- Helper: the transition block preserves flag mutual exclusivity. -/
lemma transitionBlock_flagsOK (s : HandState) (f : GestureFrame) (ho hc : Bool) (h : FlagsOK s) :
    FlagsOK (transitionBlock s f ho hc) := by
  unfold FlagsOK at *
  simp only [transitionBlock]
  split_ifs <;> simp_all [applyAttack, applyRelease]

/-- Helper: a detected-hand frame preserves flag mutual exclusivity. -/
lemma processHandGesture_flagsOK (s : HandState) (f : GestureFrame) (h : FlagsOK s) :
    FlagsOK (processHandGesture s f) := by
  unfold processHandGesture
  have h1 : FlagsOK (debounced s f) := by unfold FlagsOK debounced at *; simpa using h
  have h2 := retriggerBlock_flagsOK (debounced s f) f (openCandAt s f) h1
  have h3 := transitionBlock_flagsOK (retriggerBlock (debounced s f) f (openCandAt s f)) f
    (decide ((debounced s f).openConfirmMs ≥ OPEN_CONFIRM_MS))
    (decide ((debounced s f).closedConfirmMs ≥ CLOSED_CONFIRM_MS)) h2
  unfold FlagsOK at *
  simpa using h3

/-- Helper: an undetected-hand frame preserves flag mutual exclusivity. -/
lemma handleLostHand_flagsOK (s : HandState) (f : LostFrame) (h : FlagsOK s) :
    FlagsOK ((handleLostHand s f).1) := by
  unfold FlagsOK at *
  simp only [handleLostHand]
  split_ifs with h1 h2 h3 <;>
    simp_all [(currentReverbFor_preserves _ _).1, (currentReverbFor_preserves _ _).2]

/-- C2: for every hand state reachable from session start under any sequence
of detected frames (attacks, releases, retriggers), undetected frames (grace,
decay hold, forced release, release timeouts), single-hand-mode forced
silencing, and resets, `wasPlaying` and `isInRelease` are never both true. -/
theorem C2_flags_mutually_exclusive (s : HandState) (h : Reachable s) :
    ¬(s.wasPlaying = true ∧ s.isInRelease = true) := by
  induction h with
  | init => simp [createHandState]
  | gesture s f _ ih => exact processHandGesture_flagsOK s f ih
  | lost s f _ ih => exact handleLostHand_flagsOK s f ih

/-- C2 witness: the initial state is reachable and satisfies the invariant. -/
theorem C2_flags_mutually_exclusive_witness :
    Reachable createHandState ∧
    ¬(createHandState.wasPlaying = true ∧ createHandState.isInRelease = true) :=
  ⟨Reachable.init, C2_flags_mutually_exclusive createHandState Reachable.init⟩

/-- Helper: after a frame, the open-confirmation counter is either 0 (reset
by a missing candidate or consumed by a transition) or exactly the debounce
update of the previous counter. -/
lemma processHandGesture_openConfirm (s : HandState) (f : GestureFrame) :
    (processHandGesture s f).openConfirmMs = 0 ∨
    (processHandGesture s f).openConfirmMs =
      (if openCandAt s f then min 1000 (s.openConfirmMs + dtMsOf s f) else 0) := by
  simp only [processHandGesture, transitionBlock, retriggerBlock, debounced,
    applyAttack, applyRelease]
  split_ifs <;> simp

/-- Helper: the closed-counter analogue of `processHandGesture_openConfirm`. -/
lemma processHandGesture_closedConfirm (s : HandState) (f : GestureFrame) :
    (processHandGesture s f).closedConfirmMs = 0 ∨
    (processHandGesture s f).closedConfirmMs =
      (if closedCandAt s f then min 1000 (s.closedConfirmMs + dtMsOf s f) else 0) := by
  simp only [processHandGesture, transitionBlock, retriggerBlock, debounced,
    applyAttack, applyRelease]
  split_ifs <;> simp

/-- Helper: an attack transition (retrigger or idle attack) requires this
frame to be an open-candidate frame with the updated confirmation counter at
or above its window (25ms when retriggering out of a release, 35ms
otherwise). -/
lemma attackFired_bound (s : HandState) (f : GestureFrame) (h : attackFired s f) :
    openCandAt s f = true ∧
    (if s.isInRelease = true then OPEN_CONFIRM_MS_RELEASE else OPEN_CONFIRM_MS) ≤
      min 1000 (s.openConfirmMs + dtMsOf s f) := by
  obtain ⟨hw, hw2⟩ := h
  by_cases hoc : openCandAt s f = true
  · refine ⟨hoc, ?_⟩
    simp only [processHandGesture, transitionBlock, retriggerBlock, debounced,
      applyAttack, applyRelease, hoc, if_true] at hw2
    split_ifs at hw2 <;>
      simp_all [OPEN_CONFIRM_MS, OPEN_CONFIRM_MS_RELEASE] <;>
      first
      | linarith
      | (constructor <;> linarith)
  · exfalso
    have hoc2 : openCandAt s f = false := by simp_all
    simp only [processHandGesture, transitionBlock, retriggerBlock, debounced,
      applyAttack, applyRelease, hoc2, Bool.false_and] at hw2
    norm_num [OPEN_CONFIRM_MS] at hw2
    split_ifs at hw2 <;> simp_all

/-- Helper: a release transition requires this frame to be a closed-candidate
frame with the updated confirmation counter at or above the 90ms window. -/
lemma releaseFired_bound (s : HandState) (f : GestureFrame) (h : releaseFired s f) :
    closedCandAt s f = true ∧
    CLOSED_CONFIRM_MS ≤ min 1000 (s.closedConfirmMs + dtMsOf s f) := by
  obtain ⟨hr, hr2⟩ := h
  by_cases hcc : closedCandAt s f = true
  · refine ⟨hcc, ?_⟩
    simp only [processHandGesture, transitionBlock, retriggerBlock, debounced,
      applyAttack, applyRelease, hcc, hr] at hr2
    split_ifs at hr2 <;> simp_all [CLOSED_CONFIRM_MS]
  · exfalso
    have hcc2 : closedCandAt s f = false := by simp_all
    simp only [processHandGesture, transitionBlock, retriggerBlock, debounced,
      applyAttack, applyRelease, hcc2, Bool.false_and, hr] at hr2
    norm_num [CLOSED_CONFIRM_MS] at hr2
    split_ifs at hr2

/-- Helper: the first component of the open-run fold is the plain trace. -/
lemma foldl_openRunStep_fst (fs : List GestureFrame) (s : HandState) (r : ℚ) :
    (fs.foldl openRunStep (s, r)).1 = runGesture s fs := by
  induction fs generalizing s r with
  | nil => rfl
  | cons f rest ih => simpa [openRunStep, runGesture] using ih (processHandGesture s f) _

/-- Helper: the first component of the closed-run fold is the plain trace. -/
lemma foldl_closedRunStep_fst (fs : List GestureFrame) (s : HandState) (r : ℚ) :
    (fs.foldl closedRunStep (s, r)).1 = runGesture s fs := by
  induction fs generalizing s r with
  | nil => rfl
  | cons f rest ih => simpa [closedRunStep, runGesture] using ih (processHandGesture s f) _

/-- Helper: the per-frame time deltas of an extended trace. -/
lemma frameDtMsList_append (s : HandState) (fs : List GestureFrame) (f : GestureFrame) :
    frameDtMsList s (fs ++ [f]) =
      frameDtMsList s fs ++ [dtMsOf (runGesture s fs) f] := by
  induction fs generalizing s with
  | nil => rfl
  | cons g rest ih => simp [frameDtMsList, runGesture, ih]

/-- Helper: along any trace with nonnegative frame time deltas, the
open-confirmation counter never exceeds the contiguous open-candidate hold
time — confirmation progress cannot survive a non-candidate frame, so no
credit accumulates across non-contiguous candidate periods. -/
lemma openRun_counter_le (fs : List GestureFrame) (s : HandState) (r : ℚ)
    (hr : 0 ≤ r) (hc : s.openConfirmMs ≤ r)
    (hdt : ∀ d ∈ frameDtMsList s fs, 0 ≤ d) :
    0 ≤ (fs.foldl openRunStep (s, r)).2 ∧
    (fs.foldl openRunStep (s, r)).1.openConfirmMs ≤ (fs.foldl openRunStep (s, r)).2 := by
  induction fs generalizing s r with
  | nil => exact ⟨hr, hc⟩
  | cons f rest ih =>
    have hdthead : 0 ≤ dtMsOf s f := hdt _ (by simp [frameDtMsList])
    have hdttail : ∀ d ∈ frameDtMsList (processHandGesture s f) rest, 0 ≤ d := by
      intro d hd
      exact hdt d (by simp [frameDtMsList, hd])
    have hnext : 0 ≤ (if openCandAt s f then r + dtMsOf s f else 0) := by
      split_ifs <;> linarith
    have hcnext : (processHandGesture s f).openConfirmMs ≤
        (if openCandAt s f then r + dtMsOf s f else 0) := by
      rcases processHandGesture_openConfirm s f with h0 | hval
      · rw [h0]; exact hnext
      · rw [hval]
        split_ifs with hocc
        · calc min 1000 (s.openConfirmMs + dtMsOf s f) ≤ s.openConfirmMs + dtMsOf s f :=
            min_le_right _ _
          _ ≤ r + dtMsOf s f := by linarith
        · exact le_refl 0
    simpa [List.foldl_cons, openRunStep] using
      ih (processHandGesture s f) _ hnext hcnext hdttail

/-- Helper: the closed-candidate analogue of `openRun_counter_le`. -/
lemma closedRun_counter_le (fs : List GestureFrame) (s : HandState) (r : ℚ)
    (hr : 0 ≤ r) (hc : s.closedConfirmMs ≤ r)
    (hdt : ∀ d ∈ frameDtMsList s fs, 0 ≤ d) :
    0 ≤ (fs.foldl closedRunStep (s, r)).2 ∧
    (fs.foldl closedRunStep (s, r)).1.closedConfirmMs ≤ (fs.foldl closedRunStep (s, r)).2 := by
  induction fs generalizing s r with
  | nil => exact ⟨hr, hc⟩
  | cons f rest ih =>
    have hdthead : 0 ≤ dtMsOf s f := hdt _ (by simp [frameDtMsList])
    have hdttail : ∀ d ∈ frameDtMsList (processHandGesture s f) rest, 0 ≤ d := by
      intro d hd
      exact hdt d (by simp [frameDtMsList, hd])
    have hnext : 0 ≤ (if closedCandAt s f then r + dtMsOf s f else 0) := by
      split_ifs <;> linarith
    have hcnext : (processHandGesture s f).closedConfirmMs ≤
        (if closedCandAt s f then r + dtMsOf s f else 0) := by
      rcases processHandGesture_closedConfirm s f with h0 | hval
      · rw [h0]; exact hnext
      · rw [hval]
        split_ifs with hocc
        · calc min 1000 (s.closedConfirmMs + dtMsOf s f) ≤ s.closedConfirmMs + dtMsOf s f :=
            min_le_right _ _
          _ ≤ r + dtMsOf s f := by linarith
        · exact le_refl 0
    simpa [List.foldl_cons, closedRunStep] using
      ih (processHandGesture s f) _ hnext hcnext hdttail

/-- C1: along every frame trace from zeroed confirmation counters with
nonnegative frame time deltas, a transition is honored on the final frame
only if its candidate condition held continuously for its full confirmation
window (the open candidate for 25ms when retriggering during a release, else
35ms; the closed candidate for 90ms), measured by the contiguous candidate
hold time ending at that frame, which any non-candidate frame resets — and on
any frame whose candidate condition is false the corresponding confirmation
counter is reset to zero, so no transition ever fires from confirmed time
accumulated across non-contiguous candidate periods. -/
theorem C1_debounce (s0 : HandState) (fs : List GestureFrame) (f : GestureFrame)
    (h0o : s0.openConfirmMs = 0) (h0c : s0.closedConfirmMs = 0)
    (hdt : ∀ d ∈ frameDtMsList s0 (fs ++ [f]), 0 ≤ d) :
    (attackFired (runGesture s0 fs) f →
      openCandAt (runGesture s0 fs) f = true ∧
      (if (runGesture s0 fs).isInRelease = true then OPEN_CONFIRM_MS_RELEASE
        else OPEN_CONFIRM_MS) ≤ openRunMs s0 (fs ++ [f])) ∧
    (releaseFired (runGesture s0 fs) f →
      closedCandAt (runGesture s0 fs) f = true ∧
      CLOSED_CONFIRM_MS ≤ closedRunMs s0 (fs ++ [f])) ∧
    (openCandAt (runGesture s0 fs) f = false →
      (processHandGesture (runGesture s0 fs) f).openConfirmMs = 0) ∧
    (closedCandAt (runGesture s0 fs) f = false →
      (processHandGesture (runGesture s0 fs) f).closedConfirmMs = 0) := by
  have happ : frameDtMsList s0 (fs ++ [f]) =
      frameDtMsList s0 fs ++ [dtMsOf (runGesture s0 fs) f] := frameDtMsList_append s0 fs f
  have hdtfs : ∀ d ∈ frameDtMsList s0 fs, 0 ≤ d := by
    intro d hd
    exact hdt d (by rw [happ]; exact List.mem_append_left _ hd)
  have hdtf : 0 ≤ dtMsOf (runGesture s0 fs) f := by
    refine hdt _ ?_
    rw [happ]
    exact List.mem_append_right _ (by simp)
  have hopen := openRun_counter_le fs s0 0 le_rfl (by rw [h0o]) hdtfs
  have hofst := foldl_openRunStep_fst fs s0 0
  have hclosed := closedRun_counter_le fs s0 0 le_rfl (by rw [h0c]) hdtfs
  have hcfst := foldl_closedRunStep_fst fs s0 0
  have hrunopen : openRunMs s0 (fs ++ [f]) =
      (if openCandAt (runGesture s0 fs) f then
        (fs.foldl openRunStep (s0, 0)).2 + dtMsOf (runGesture s0 fs) f else 0) := by
    unfold openRunMs
    rw [List.foldl_append]
    simp [openRunStep, hofst]
  have hrunclosed : closedRunMs s0 (fs ++ [f]) =
      (if closedCandAt (runGesture s0 fs) f then
        (fs.foldl closedRunStep (s0, 0)).2 + dtMsOf (runGesture s0 fs) f else 0) := by
    unfold closedRunMs
    rw [List.foldl_append]
    simp [closedRunStep, hcfst]
  refine ⟨fun ha => ?_, fun hr => ?_, fun hoc => ?_, fun hcc => ?_⟩
  · obtain ⟨hcand, hbound⟩ := attackFired_bound _ f ha
    refine ⟨hcand, ?_⟩
    rw [hrunopen, if_pos hcand]
    have h1 : min 1000 ((runGesture s0 fs).openConfirmMs + dtMsOf (runGesture s0 fs) f) ≤
        (runGesture s0 fs).openConfirmMs + dtMsOf (runGesture s0 fs) f := min_le_right _ _
    have h2 : (runGesture s0 fs).openConfirmMs ≤ (fs.foldl openRunStep (s0, 0)).2 := by
      rw [← hofst]
      exact hopen.2
    split_ifs at hbound ⊢ <;> linarith
  · obtain ⟨hcand, hbound⟩ := releaseFired_bound _ f hr
    refine ⟨hcand, ?_⟩
    rw [hrunclosed, if_pos hcand]
    have h1 : min 1000 ((runGesture s0 fs).closedConfirmMs + dtMsOf (runGesture s0 fs) f) ≤
        (runGesture s0 fs).closedConfirmMs + dtMsOf (runGesture s0 fs) f := min_le_right _ _
    have h2 : (runGesture s0 fs).closedConfirmMs ≤ (fs.foldl closedRunStep (s0, 0)).2 := by
      rw [← hcfst]
      exact hclosed.2
    linarith
  · rcases processHandGesture_openConfirm (runGesture s0 fs) f with h | h
    · exact h
    · rw [h, if_neg (by simp [hoc])]
  · rcases processHandGesture_closedConfirm (runGesture s0 fs) f with h | h
    · exact h
    · rw [h, if_neg (by simp [hcc])]

/-- C1 witness: from the initial state, one open frame at t = 1000 (33ms
credited) does not yet attack; the next open frame at t = 1020 brings the
contiguous hold to 53ms ≥ 35ms and the attack fires. -/
theorem C1_debounce_witness :
    attackFired (runGesture createHandState [openFrameAt 1000]) (openFrameAt 1020) ∧
    (if (runGesture createHandState [openFrameAt 1000]).isInRelease = true
      then OPEN_CONFIRM_MS_RELEASE else OPEN_CONFIRM_MS) ≤
      openRunMs createHandState ([openFrameAt 1000] ++ [openFrameAt 1020]) :=
  have ha : attackFired (runGesture createHandState [openFrameAt 1000]) (openFrameAt 1020) :=
    ⟨by decide, by decide⟩
  ⟨ha, ((C1_debounce createHandState [openFrameAt 1000] (openFrameAt 1020)
      (by decide) (by decide) (by decide)).1 ha).2⟩

/-- Helper: when every attempt from `k` to the retry bound decodes to an
unacceptable ASR sample, `loadNewSample` started at retry count `k` accepts
the final attempt's sample anyway, loaded and with a poor-quality warning. -/
lemma loadNewSample_poor_run (oracle : ℕ → AttemptOutcome) (ds : ℕ → DecodedSample) :
    ∀ (n k : ℕ) (e : LoadState), k + n = MAX_SAMPLE_RETRIES →
    (∀ i, k ≤ i → i ≤ MAX_SAMPLE_RETRIES → oracle i = .decoded (ds i)) →
    (∀ i, k ≤ i → i ≤ MAX_SAMPLE_RETRIES → (ds i).duration ≥ ASR_MIN_DURATION) →
    (∀ i, k ≤ i → i ≤ MAX_SAMPLE_RETRIES → (ds i).optAcceptable = false) →
    loadNewSample oracle k e =
      { currentSample := some (ds MAX_SAMPLE_RETRIES).samplePath
        isLoaded := true
        useASR := true
        loopStart := (ds MAX_SAMPLE_RETRIES).optLoopStart
        loopEnd := (ds MAX_SAMPLE_RETRIES).optLoopEnd
        poorQualityWarned := true } := by
  intro n
  induction n with
  | zero =>
    intro k e hk hdec hasr hpoor
    have hk5 : k = MAX_SAMPLE_RETRIES := by omega
    subst hk5
    rw [loadNewSample]
    rw [hdec _ le_rfl le_rfl]
    dsimp only
    rw [if_pos (hasr _ le_rfl le_rfl)]
    rw [dif_neg (by simp [MAX_SAMPLE_RETRIES])]
    simp [hpoor _ le_rfl le_rfl]
  | succ m ih =>
    intro k e hk hdec hasr hpoor
    have hklt : k < MAX_SAMPLE_RETRIES := by omega
    rw [loadNewSample]
    rw [hdec _ le_rfl (by omega)]
    dsimp only
    rw [if_pos (hasr _ le_rfl (by omega))]
    rw [dif_pos ⟨hpoor _ le_rfl (by omega), hklt⟩]
    exact ih (k + 1) _ (by omega) (fun i h1 h2 => hdec i (by omega) h2)
      (fun i h1 h2 => hasr i (by omega) h2) (fun i h1 h2 => hpoor i (by omega) h2)

/-- C9: a rejected ASR sample is not fatal.  If the attempt at retry count
`k < 5` decodes to an ASR-length sample whose loop points are unacceptable,
`loadNewSample` records the selected path and recurses with retry count
`k + 1` (reselect and reload); and when all six attempts decode to
unacceptable ASR samples, the run accepts the last sample anyway: the engine
ends loaded in ASR mode with that sample's loop points and the poor-quality
warning raised. -/
theorem C9_loop_quality_retry (oracle : ℕ → AttemptOutcome) (ds : ℕ → DecodedSample)
    (e : LoadState)
    (hdec : ∀ i, i ≤ MAX_SAMPLE_RETRIES → oracle i = .decoded (ds i))
    (hasr : ∀ i, i ≤ MAX_SAMPLE_RETRIES → (ds i).duration ≥ ASR_MIN_DURATION)
    (hpoor : ∀ i, i ≤ MAX_SAMPLE_RETRIES → (ds i).optAcceptable = false) :
    (∀ k, k < MAX_SAMPLE_RETRIES →
      loadNewSample oracle k e =
        loadNewSample oracle (k + 1) { e with currentSample := some (ds k).samplePath }) ∧
    loadNewSample oracle 0 e =
      { currentSample := some (ds MAX_SAMPLE_RETRIES).samplePath
        isLoaded := true
        useASR := true
        loopStart := (ds MAX_SAMPLE_RETRIES).optLoopStart
        loopEnd := (ds MAX_SAMPLE_RETRIES).optLoopEnd
        poorQualityWarned := true } := by
  constructor
  · intro k hk
    conv_lhs => rw [loadNewSample]
    rw [hdec k (by omega)]
    dsimp only
    rw [if_pos (hasr k (by omega))]
    rw [dif_pos ⟨hpoor k (by omega), hk⟩]
  · exact loadNewSample_poor_run oracle ds MAX_SAMPLE_RETRIES 0 e rfl
      (fun i _ h2 => hdec i h2) (fun i _ h2 => hasr i h2) (fun i _ h2 => hpoor i h2)

/-- C9 witness: on the oracle whose every decode is an unacceptable 1-second
ASR sample, the load starting from a fresh engine ends loaded with the sixth
sample's path and a poor-quality warning. -/
theorem C9_loop_quality_retry_witness :
    (loadNewSample allPoorOracle 0 freshLoadState).isLoaded = true ∧
    (loadNewSample allPoorOracle 0 freshLoadState).poorQualityWarned = true ∧
    (loadNewSample allPoorOracle 0 freshLoadState).currentSample = some "poor5" := by
  have h := (C9_loop_quality_retry allPoorOracle allPoorDs freshLoadState
    (fun i _ => rfl) (fun i _ => by norm_num [allPoorDs, ASR_MIN_DURATION])
    (fun i _ => rfl)).2
  rw [h]
  exact ⟨rfl, rfl, rfl⟩

/-- Helper: the final hard cap and deadzone keep any pitch value within
`±(VIBRATO_MAX_CENTS / 100)` semitones. -/
lemma vib_cap_abs_le (x : ℚ) :
    |(if |max (-(VIBRATO_MAX_CENTS / 100)) (min (VIBRATO_MAX_CENTS / 100) x)| < 0.0005 then 0
      else max (-(VIBRATO_MAX_CENTS / 100)) (min (VIBRATO_MAX_CENTS / 100) x) : ℚ)| ≤
      VIBRATO_MAX_CENTS / 100 := by
  split_ifs with h
  · norm_num [VIBRATO_MAX_CENTS]
  · rw [abs_le]
    exact ⟨le_max_left _ _, max_le (by norm_num [VIBRATO_MAX_CENTS]) (min_le_left _ _)⟩

/-- C8: the vibrato target is nonzero only when `|yVelocity|` exceeds the
0.38 units/s threshold, the flip-rate EMA is at least 5 Hz, and the last
recorded direction flip is within 140 ms; when active the target depth is
`clamp(-yVelocity * 14, ±8)` cents and otherwise 0; a flip is recorded only
when the Y-velocity sign changes with both pre- and post-flip magnitudes
above the threshold; and the emitted pitch shift is always within ±0.08
semitones. -/
theorem C8_vibrato_gating (s : VibState) (f : VibFrame) :
    (targetCentsOf s f ≠ 0 →
      |f.yVelocity| > VIBRATO_VEL_THRESHOLD ∧
      flipHzEmaAfter s f ≥ (VIBRATO_FLIP_HZ_THRESHOLD : ℝ) ∧
      lastFlipMsAfter s f > 0 ∧
      f.timestamp - lastFlipMsAfter s f ≤ VIBRATO_RECENT_FLIP_MS) ∧
    (vibratoActiveOf s f →
      targetCentsOf s f =
        max (-VIBRATO_MAX_CENTS) (min VIBRATO_MAX_CENTS ((-f.yVelocity) * VIBRATO_CENTS_PER_VEL))) ∧
    (¬vibratoActiveOf s f → targetCentsOf s f = 0) ∧
    (flipGateOf s f = false → lastFlipMsAfter s f = s.lastFlipMs) ∧
    (flipGateOf s f = true →
      lastFlipMsAfter s f = f.timestamp ∧ s.prevYVelocity ≠ 0 ∧
      (s.prevYVelocity > 0 ↔ ¬(f.yVelocity > 0)) ∧
      |f.yVelocity| > VIBRATO_VEL_THRESHOLD ∧ |s.prevYVelocity| > VIBRATO_VEL_THRESHOLD) ∧
    |(processHandVibrato s f).2| ≤ VIBRATO_MAX_CENTS / 100 := by
  refine ⟨?_, ?_, ?_, ?_, ?_, ?_⟩
  · intro h
    by_cases hA : vibratoActiveOf s f
    · obtain ⟨h1, h2, h3⟩ := hA
      rw [recentFlipOkOf, Bool.and_eq_true, decide_eq_true_eq, decide_eq_true_eq] at h3
      exact ⟨h1, h2, h3.1, h3.2⟩
    · exact absurd (by rw [targetCentsOf, if_neg hA]) h
  · intro hA
    rw [targetCentsOf, if_pos hA]
  · intro hA
    rw [targetCentsOf, if_neg hA]
  · intro hg
    rw [lastFlipMsAfter, if_neg (by simp [hg])]
  · intro hg
    have hlast : lastFlipMsAfter s f = f.timestamp := by rw [lastFlipMsAfter, if_pos hg]
    simp only [flipGateOf, signFlipOf, Bool.and_eq_true, bne_iff_ne, ne_eq,
      decide_eq_true_eq, decide_eq_decide] at hg
    obtain ⟨⟨⟨hne, hsign⟩, hv⟩, hp⟩ := hg
    exact ⟨hlast, hne, by tauto, hv, hp⟩
  · simp only [processHandVibrato]
    exact vib_cap_abs_le _

/-- C8 witness: with a flip 5 ms ago at 6 Hz EMA and a 0.5 units/s direction
reversal, the vibrato is active, the target depth is `-(-0.5) * 14 = 7` cents,
and the emitted pitch shift is within ±0.08 semitones. -/
theorem C8_vibrato_gating_witness :
    vibratoActiveOf wVibState wVibFrame ∧
    targetCentsOf wVibState wVibFrame = 7 ∧
    |(processHandVibrato wVibState wVibFrame).2| ≤ VIBRATO_MAX_CENTS / 100 := by
  have hgate : flipGateOf wVibState wVibFrame = true := by decide
  have hq1 : (VIBRATO_FLIP_HZ_SMOOTH *
      (1000 / max 1 (wVibFrame.timestamp - wVibState.lastFlipMs)) : ℚ) = 50 := by decide
  have hq2 : (1 - VIBRATO_FLIP_HZ_SMOOTH : ℚ) = 3 / 4 := by decide
  have hema : flipHzEmaAfter wVibState wVibFrame = ((109 / 2 : ℚ) : ℝ) := by
    rw [flipHzEmaAfter, if_pos hgate, if_pos (by decide : wVibState.lastFlipMs > 0)]
    rw [hq1, hq2]
    show ((50 : ℚ) : ℝ) + ((3 / 4 : ℚ) : ℝ) * (6 : ℝ) = ((109 / 2 : ℚ) : ℝ)
    push_cast
    norm_num
  have hA : vibratoActiveOf wVibState wVibFrame := by
    refine ⟨by decide, ?_, by decide⟩
    rw [hema]
    norm_num [VIBRATO_FLIP_HZ_THRESHOLD]
  have h := C8_vibrato_gating wVibState wVibFrame
  exact ⟨hA, (h.2.1 hA).trans (by decide), h.2.2.2.2.2⟩

/-- Helper: membership in a candidate grid `lo, lo + step, ...` up to `hi`. -/
lemma mem_candidateSamples (lo hi step s : ℕ) :
    s ∈ candidateSamples lo hi step ↔ step ≠ 0 ∧ s ≤ hi ∧ ∃ i, s = lo + i * step := by
  rw [candidateSamples]
  split_ifs with h0 hhl
  · simp [h0]
  · simp only [List.not_mem_nil, false_iff]
    rintro ⟨hstep, hle, i, rfl⟩
    exact absurd (le_trans (Nat.le_add_right _ _) hle) (not_le.mpr hhl)
  · simp only [List.mem_map, List.mem_range]
    constructor
    · rintro ⟨i, hi_lt, rfl⟩
      have h1 : i ≤ (hi - lo) / step := Nat.lt_succ_iff.mp hi_lt
      have h2 : i * step ≤ (hi - lo) / step * step := Nat.mul_le_mul_right _ h1
      have h3 : (hi - lo) / step * step ≤ hi - lo := Nat.div_mul_le_self _ _
      have h5 : lo + i * step ≤ lo + (hi - lo) := Nat.add_le_add_left (le_trans h2 h3) lo
      have h6 : lo + (hi - lo) = hi := Nat.add_sub_cancel' (Nat.le_of_not_lt hhl)
      exact ⟨h0, h5.trans_eq h6, i, rfl⟩
    · rintro ⟨hstep, hle, i, rfl⟩
      refine ⟨i, Nat.lt_succ_iff.mpr ?_, rfl⟩
      have h1 : i * step ≤ hi - lo := by
        have h := Nat.sub_le_sub_right hle lo
        simpa using h
      exact (Nat.le_div_iff_mul_le (Nat.pos_of_ne_zero h0)).mpr h1

/-- Helper: folding the best-match update from a concrete accumulator yields a
best match that is the accumulator or one of the scanned pairs, never
increases the running difference, and is at most every scanned difference. -/
lemma foldl_updateBest_spec (l : List (RMSCandidate × RMSCandidate)) :
    ∀ acc : BestMatch, ∃ bb, l.foldl updateBest (some acc) = some bb ∧
      (bb = acc ∨ ∃ p ∈ l, bb = ⟨p.1.sample, p.2.sample, |p.1.rms - p.2.rms|, p.1.rms, p.2.rms⟩) ∧
      bb.rmsDiff ≤ acc.rmsDiff ∧
      ∀ p ∈ l, bb.rmsDiff ≤ |p.1.rms - p.2.rms| := by
  induction l with
  | nil => exact fun acc => ⟨acc, rfl, Or.inl rfl, le_rfl, by simp⟩
  | cons q t ih =>
    intro acc
    by_cases hq : |q.1.rms - q.2.rms| < acc.rmsDiff
    · have hstep : updateBest (some acc) q =
          some ⟨q.1.sample, q.2.sample, |q.1.rms - q.2.rms|, q.1.rms, q.2.rms⟩ := by
        simp only [updateBest]
        rw [if_pos hq]
      obtain ⟨bb, h1, h2, h3, h4⟩ :=
        ih ⟨q.1.sample, q.2.sample, |q.1.rms - q.2.rms|, q.1.rms, q.2.rms⟩
      refine ⟨bb, by rw [List.foldl_cons, hstep]; exact h1, ?_, le_trans h3 (le_of_lt hq), ?_⟩
      · rcases h2 with h2 | ⟨p, hp, h2⟩
        · exact Or.inr ⟨q, List.mem_cons_self _ _, h2⟩
        · exact Or.inr ⟨p, List.mem_cons_of_mem _ hp, h2⟩
      · intro p hp
        rcases List.mem_cons.mp hp with rfl | hp
        · exact h3
        · exact h4 p hp
    · have hstep : updateBest (some acc) q = some acc := by
        simp only [updateBest]
        rw [if_neg hq]
      obtain ⟨bb, h1, h2, h3, h4⟩ := ih acc
      refine ⟨bb, by rw [List.foldl_cons, hstep]; exact h1, ?_, h3, ?_⟩
      · rcases h2 with h2 | ⟨p, hp, h2⟩
        · exact Or.inl h2
        · exact Or.inr ⟨p, List.mem_cons_of_mem _ hp, h2⟩
      · intro p hp
        rcases List.mem_cons.mp hp with rfl | hp
        · exact le_trans h3 (not_lt.mp hq)
        · exact h4 p hp

/-- Helper: scanning a nonempty pair list from the `Infinity` sentinel always
produces one of the scanned pairs, with minimal RMS difference. -/
lemma foldl_updateBest_none_spec (l : List (RMSCandidate × RMSCandidate)) (hl : l ≠ []) :
    ∃ bb, l.foldl updateBest none = some bb ∧
      (∃ p ∈ l, bb = ⟨p.1.sample, p.2.sample, |p.1.rms - p.2.rms|, p.1.rms, p.2.rms⟩) ∧
      ∀ p ∈ l, bb.rmsDiff ≤ |p.1.rms - p.2.rms| := by
  match l, hl with
  | q :: t, _ =>
    obtain ⟨bb, h1, h2, h3, h4⟩ :=
      foldl_updateBest_spec t ⟨q.1.sample, q.2.sample, |q.1.rms - q.2.rms|, q.1.rms, q.2.rms⟩
    refine ⟨bb, by rw [List.foldl_cons]; exact h1, ?_, ?_⟩
    · rcases h2 with h2 | ⟨p, hp, h2⟩
      · exact ⟨q, List.mem_cons_self _ _, h2⟩
      · exact ⟨p, List.mem_cons_of_mem _ hp, h2⟩
    · intro p hp
      rcases List.mem_cons.mp hp with rfl | hp
      · exact h3
      · exact h4 p hp

/-- Helper: the pair list is nonempty when both candidate grids are. -/
lemma candidatePairs_ne_nil (b : BufferQ) (t1 t2 : ℚ)
    (h1 : rmsCandidatesOf b t1 ≠ []) (h2 : rmsCandidatesOf b t2 ≠ []) :
    candidatePairsOf b t1 t2 ≠ [] := by
  obtain ⟨c1, hc1⟩ := List.exists_mem_of_ne_nil _ h1
  obtain ⟨c2, hc2⟩ := List.exists_mem_of_ne_nil _ h2
  have hmem : (c1, c2) ∈ candidatePairsOf b t1 t2 := by
    rw [candidatePairsOf]
    exact List.mem_flatMap.mpr ⟨c1, hc1, List.mem_map_of_mem _ hc2⟩
  exact List.ne_nil_of_mem hmem

/-- C5: the loop-point search enumerates exactly the 2ms-step sample grid
inside the (clamped) ±0.15s window around each target, scores every candidate
by its 30ms-window RMS, returns the candidate (start, end) pair whose RMS
difference is minimal over all scanned pairs, and classifies the result
acceptable exactly when the RMS difference, normalized by the pair's average
RMS, is at most 5% and the loop length lies within [0.4s, 4.0s]. -/
theorem C5_loop_point_search (b : BufferQ) (ts te : ℚ) :
    (∀ t : ℚ, ∀ c ∈ rmsCandidatesOf b t,
      c.rms = calculateRMS b.channelData c.sample (rmsWindowSamplesOf b) ∧
      searchMinOf b t ≤ c.sample ∧ c.sample ≤ searchMaxOf b t ∧
      ∃ i, c.sample = searchMinOf b t + i * stepOf b) ∧
    (∀ t : ℚ, ∀ i : ℕ, stepOf b ≠ 0 →
      searchMinOf b t + i * stepOf b ≤ searchMaxOf b t →
      ∃ c ∈ rmsCandidatesOf b t, c.sample = searchMinOf b t + i * stepOf b) ∧
    (∀ p ∈ candidatePairsOf b ts te,
      (bestMatchOf b ts te).rmsDiff ≤ |p.1.rms - p.2.rms|) ∧
    (candidatePairsOf b ts te ≠ [] →
      ∃ p ∈ candidatePairsOf b ts te,
        bestMatchOf b ts te =
          ⟨p.1.sample, p.2.sample, |p.1.rms - p.2.rms|, p.1.rms, p.2.rms⟩) ∧
    (findOptimalLoopPoints b ts te).loopStart =
      ((bestMatchOf b ts te).startSample : ℚ) / (b.sampleRate : ℚ) ∧
    (findOptimalLoopPoints b ts te).loopEnd =
      ((bestMatchOf b ts te).endSample : ℚ) / (b.sampleRate : ℚ) ∧
    (findOptimalLoopPoints b ts te).loopLength =
      (findOptimalLoopPoints b ts te).loopEnd - (findOptimalLoopPoints b ts te).loopStart ∧
    (findOptimalLoopPoints b ts te).rmsDiff =
      (if 0 < ((bestMatchOf b ts te).startRMS + (bestMatchOf b ts te).endRMS) / 2 then
        (bestMatchOf b ts te).rmsDiff /
          (((bestMatchOf b ts te).startRMS + (bestMatchOf b ts te).endRMS) / 2)
      else (bestMatchOf b ts te).rmsDiff) ∧
    ((findOptimalLoopPoints b ts te).isAcceptable ↔
      (findOptimalLoopPoints b ts te).rmsDiff ≤ (MAX_RMS_DIFF : ℝ) ∧
      MIN_LOOP_LENGTH ≤ (findOptimalLoopPoints b ts te).loopLength ∧
      (findOptimalLoopPoints b ts te).loopLength ≤ MAX_LOOP_LENGTH) := by
  refine ⟨?_, ?_, ?_, ?_, rfl, rfl, rfl, rfl, Iff.rfl⟩
  · intro t c hc
    rw [rmsCandidatesOf] at hc
    obtain ⟨s, hs, rfl⟩ := List.mem_map.mp hc
    obtain ⟨hstep, hle, i, hi⟩ := (mem_candidateSamples _ _ _ _).mp hs
    exact ⟨rfl, le_trans (Nat.le_add_right _ _) (le_of_eq hi.symm), hle, i, hi⟩
  · intro t i hstep hle
    refine ⟨⟨searchMinOf b t + i * stepOf b,
      calculateRMS b.channelData (searchMinOf b t + i * stepOf b) (rmsWindowSamplesOf b)⟩,
      ?_, rfl⟩
    rw [rmsCandidatesOf]
    exact List.mem_map_of_mem _ ((mem_candidateSamples _ _ _ _).mpr ⟨hstep, hle, i, rfl⟩)
  · intro p hp
    obtain ⟨bb, h1, _, h4⟩ := foldl_updateBest_none_spec _ (List.ne_nil_of_mem hp)
    rw [bestMatchOf, h1]
    exact h4 p hp
  · intro hne
    obtain ⟨bb, h1, h2, _⟩ := foldl_updateBest_none_spec _ hne
    obtain ⟨p, hp, hbb⟩ := h2
    refine ⟨p, hp, ?_⟩
    rw [bestMatchOf, h1]
    exact hbb

/-- C5 witness: on the constant 0.2-second test buffer, both candidate grids
are nonempty, the returned best match is one of the scanned candidate pairs,
and the grid point `searchMin + 3 * step` is enumerated. -/
theorem C5_loop_point_search_witness :
    candidatePairsOf wBuffer wTs wTe ≠ [] ∧
    (∃ p ∈ candidatePairsOf wBuffer wTs wTe,
      bestMatchOf wBuffer wTs wTe =
        ⟨p.1.sample, p.2.sample, |p.1.rms - p.2.rms|, p.1.rms, p.2.rms⟩) ∧
    (∃ c ∈ rmsCandidatesOf wBuffer wTs,
      c.sample = searchMinOf wBuffer wTs + 3 * stepOf wBuffer) := by
  have hm1 : (15 : ℕ) ∈
      candidateSamples (searchMinOf wBuffer wTs) (searchMaxOf wBuffer wTs) (stepOf wBuffer) := by
    decide
  have hm2 : (15 : ℕ) ∈
      candidateSamples (searchMinOf wBuffer wTe) (searchMaxOf wBuffer wTe) (stepOf wBuffer) := by
    decide
  have hs : rmsCandidatesOf wBuffer wTs ≠ [] := by
    refine List.ne_nil_of_mem (a := ⟨15, calculateRMS wBuffer.channelData 15 (rmsWindowSamplesOf wBuffer)⟩) ?_
    rw [rmsCandidatesOf]
    exact List.mem_map_of_mem _ hm1
  have he : rmsCandidatesOf wBuffer wTe ≠ [] := by
    refine List.ne_nil_of_mem (a := ⟨15, calculateRMS wBuffer.channelData 15 (rmsWindowSamplesOf wBuffer)⟩) ?_
    rw [rmsCandidatesOf]
    exact List.mem_map_of_mem _ hm2
  have hne : candidatePairsOf wBuffer wTs wTe ≠ [] := candidatePairs_ne_nil _ _ _ hs he
  have h := C5_loop_point_search wBuffer wTs wTe
  exact ⟨hne, h.2.2.2.1 hne, h.2.1 wTs 3 (by decide) (by decide)⟩

/-- Helper: the brass per-layer candidate list is nonempty whenever the
group's flat list is (the missing-layer fallback). -/
lemma brassLayerCandidates_ne_nil (flat : List SampleInfo) (layer : ArticulationLayer)
    (h : flat ≠ []) : brassLayerCandidates flat layer ≠ [] := by
  simp only [brassLayerCandidates]
  split_ifs with h1
  · exact h
  · simpa using h1

/-- Helper: the brass octave band is nonempty whenever the input list is. -/
lemma applyPitchModeBrass_ne_nil (l : List SampleInfo) (m : PitchMode) (r : List SampleInfo)
    (h : l ≠ []) (hr : applyPitchModeBrass l m = some r) : r ≠ [] := by
  simp only [applyPitchModeBrass] at hr
  split_ifs at hr <;>
    obtain rfl : _ = r := Option.some_injective _ hr <;>
    simp_all

/-- Helper: the generic pitch band is nonempty whenever the input list is. -/
lemma applyPitchModeGeneric_ne_nil (l : List SampleInfo) (m : PitchMode)
    (h : l ≠ []) : applyPitchModeGeneric l m ≠ [] := by
  simp only [applyPitchModeGeneric]
  split_ifs <;> simp_all

/-- Helper: the pitch-mode band filter never empties a nonempty candidate
list (every filter falls back to the unfiltered list). -/
lemma applyPitchMode_ne_nil (g : SampleGroup) (l : List SampleInfo) (m : PitchMode)
    (h : l ≠ []) : applyPitchMode g l m ≠ [] := by
  simp only [applyPitchMode]
  split_ifs with h1 h2 h3
  · exact h
  · exact h
  · rcases hb : applyPitchModeBrass l m with _ | r <;> simp only [hb]
    · exact applyPitchModeGeneric_ne_nil l m h
    · exact applyPitchModeBrass_ne_nil l m r h hb
  · exact applyPitchModeGeneric_ne_nil l m h

/-- Helper: the brass octave band only contains input samples. -/
lemma applyPitchModeBrass_subset (l : List SampleInfo) (m : PitchMode) (r : List SampleInfo)
    (hr : applyPitchModeBrass l m = some r) : ∀ x ∈ r, x ∈ l := by
  simp only [applyPitchModeBrass] at hr
  split_ifs at hr <;>
    obtain rfl : _ = r := Option.some_injective _ hr <;>
    first
    | exact fun x hx => hx
    | exact fun x hx => List.mem_of_mem_filter hx

/-- Helper: the generic pitch band only contains input samples. -/
lemma applyPitchModeGeneric_subset (l : List SampleInfo) (m : PitchMode) :
    ∀ x ∈ applyPitchModeGeneric l m, x ∈ l := by
  intro x hx
  simp only [applyPitchModeGeneric] at hx
  split_ifs at hx <;> first | exact hx | exact List.mem_of_mem_filter hx

/-- Helper: the pitch-mode band only contains input samples. -/
lemma applyPitchMode_subset (g : SampleGroup) (l : List SampleInfo) (m : PitchMode) :
    ∀ x ∈ applyPitchMode g l m, x ∈ l := by
  intro x hx
  simp only [applyPitchMode] at hx
  split_ifs at hx with h1 h2 h3
  · exact hx
  · exact hx
  · rcases hb : applyPitchModeBrass l m with _ | r <;> rw [hb] at hx
    · exact applyPitchModeGeneric_subset l m x hx
    · exact applyPitchModeBrass_subset l m r hb x hx
  · exact applyPitchModeGeneric_subset l m x hx

/-- Helper: the same-pitch left expansion only moves the index down. -/
lemma expandLeft_le (midis : List ℤ) (chosen : ℤ) (n : ℕ) :
    expandLeft midis chosen n ≤ n := by
  induction n with
  | zero => exact le_rfl
  | succ k ih =>
    simp only [expandLeft]
    split_ifs
    · exact le_trans ih (Nat.le_succ k)
    · exact le_rfl

/-- Helper: the same-pitch right expansion only moves the index up. -/
lemma expandRightLoop_ge (midis : List ℤ) (chosen : ℤ) (fuel e : ℕ) :
    e ≤ expandRightLoop midis chosen fuel e := by
  induction fuel generalizing e with
  | zero => exact le_rfl
  | succ k ih =>
    simp only [expandRightLoop]
    split_ifs
    · exact le_trans (Nat.le_succ e) (ih (e + 1))
    · exact le_rfl

/-- Helper: the right expansion stays inside the candidate list. -/
lemma expandRightLoop_le (midis : List ℤ) (chosen : ℤ) (fuel e : ℕ)
    (he : e ≤ midis.length - 1) :
    expandRightLoop midis chosen fuel e ≤ midis.length - 1 := by
  induction fuel generalizing e with
  | zero => exact he
  | succ k ih =>
    simp only [expandRightLoop]
    split_ifs with hc
    · exact ih (e + 1) (by omega)
    · exact he

/-- Helper: `expandRight` only moves the index up. -/
lemma expandRight_ge (midis : List ℤ) (chosen : ℤ) (e : ℕ) :
    e ≤ expandRight midis chosen e :=
  expandRightLoop_ge midis chosen midis.length e

/-- Helper: `expandRight` stays inside the candidate list. -/
lemma expandRight_le (midis : List ℤ) (chosen : ℤ) (e : ℕ) (he : e ≤ midis.length - 1) :
    expandRight midis chosen e ≤ midis.length - 1 :=
  expandRightLoop_le midis chosen midis.length e he

/-- Helper: on a nonempty candidate list, the selection core always returns
the path of one of the candidates (the picked index stays in range for any
random draw in `[0, 1)`). -/
lemma selectFromCandidates_mem (candidates : List SampleInfo) (y r1 r2 : ℚ)
    (h : candidates ≠ []) (hr1 : r2 < 1) :
    selectFromCandidates candidates y r1 r2 ∈ candidates.map SampleInfo.path := by
  have hlen : 0 < candidates.length := List.length_pos.mpr h
  simp only [selectFromCandidates]
  set midis := candidates.map SampleInfo.midiNote with hmidis
  have hmlen : midis.length = candidates.length := by rw [hmidis]; exact List.length_map _ _
  set targetMidi := jsRound
    (((candidates.getD 0 default).midiNote : ℚ) + (1 - clamp01 y) *
      (((candidates.getD (candidates.length - 1) default).midiNote -
        (candidates.getD 0 default).midiNote : ℤ) : ℚ)) with htm
  set rightIdx := min (max (bsearchLo midis targetMidi) 0) (candidates.length - 1) with hri
  set leftIdx := rightIdx - 1 with hli
  set chosenMidi :=
    (if |(candidates.getD leftIdx default).midiNote - targetMidi| <
        |(candidates.getD rightIdx default).midiNote - targetMidi| then
      (candidates.getD leftIdx default).midiNote
    else if |(candidates.getD rightIdx default).midiNote - targetMidi| <
        |(candidates.getD leftIdx default).midiNote - targetMidi| then
      (candidates.getD rightIdx default).midiNote
    else if r1 < 0.5 then (candidates.getD leftIdx default).midiNote
    else (candidates.getD rightIdx default).midiNote) with hcm
  set start := expandLeft midis chosenMidi leftIdx with hstart
  set stop := expandRight midis chosenMidi rightIdx with hstop
  have hri_le : rightIdx ≤ candidates.length - 1 := min_le_right _ _
  have hstart_le : start ≤ leftIdx := expandLeft_le midis chosenMidi leftIdx
  have hstop_ge : rightIdx ≤ stop := expandRight_ge midis chosenMidi rightIdx
  have hstop_le : stop ≤ candidates.length - 1 := by
    have := expandRight_le midis chosenMidi rightIdx (by omega)
    omega
  have hle : start ≤ stop := by omega
  have hfloor : (⌊r2 * ((stop - start + 1 : ℕ) : ℚ)⌋).toNat ≤ stop - start := by
    have hn : (0 : ℚ) < ((stop - start + 1 : ℕ) : ℚ) := by
      have : 0 < stop - start + 1 := by omega
      exact_mod_cast this
    have hlt : r2 * ((stop - start + 1 : ℕ) : ℚ) < ((stop - start + 1 : ℕ) : ℚ) := by
      calc r2 * ((stop - start + 1 : ℕ) : ℚ) < 1 * ((stop - start + 1 : ℕ) : ℚ) :=
        mul_lt_mul_of_pos_right hr1 hn
      _ = ((stop - start + 1 : ℕ) : ℚ) := one_mul _
    have hfl : ⌊r2 * ((stop - start + 1 : ℕ) : ℚ)⌋ < ((stop - start + 1 : ℕ) : ℤ) := by
      rw [Int.floor_lt]
      exact_mod_cast hlt
    omega
  have hpick : start + (⌊r2 * ((stop - start + 1 : ℕ) : ℚ)⌋).toNat < candidates.length := by
    omega
  rw [List.getD_eq_getElem candidates default hpick]
  exact List.mem_map_of_mem SampleInfo.path (candidates.getElem_mem hpick)

/-- C10: sample selection is total — the brass layer lookup and the
pitch-mode band filter never empty a nonempty candidate list (each falls back
to the unfiltered list), an empty candidate list yields the hardcoded
per-group default path, and on any nonempty candidate list (any hand Y,
clamped; any pitch mode; any random draws with pick draw in `[0, 1)`) the
selector returns the path of one of the candidates. -/
theorem C10_selection_total (cands flat : List SampleInfo) (y r1 r2 : ℚ)
    (g : SampleGroup) (layer : ArticulationLayer) (m : PitchMode)
    (hr0 : 0 ≤ r2) (hr1 : r2 < 1) :
    (flat ≠ [] → brassLayerCandidates flat layer ≠ []) ∧
    (cands ≠ [] → applyPitchMode g cands m ≠ []) ∧
    (getSampleByPitchGroupAndLayer [] y g m r1 r2 = fallbackPath g) ∧
    (cands ≠ [] →
      getSampleByPitchGroupAndLayer cands y g m r1 r2 ∈ cands.map SampleInfo.path) := by
  refine ⟨brassLayerCandidates_ne_nil flat layer, applyPitchMode_ne_nil g cands m, rfl,
    fun h => ?_⟩
  simp only [getSampleByPitchGroupAndLayer]
  rw [if_neg (by simpa using h)]
  have hsub := applyPitchMode_subset g cands m
  have hmem := selectFromCandidates_mem (applyPitchMode g cands m) y r1 r2
    (applyPitchMode_ne_nil g cands m h) hr1
  obtain ⟨x, hx, hxeq⟩ := List.mem_map.mp hmem
  exact List.mem_map.mpr ⟨x, hsub x hx, hxeq⟩

/-- C10 witness: on the five-note cello catalog with pitch mode low, the
filters stay nonempty, the empty catalog yields the cello default path, and
the selected path is one of the catalog paths. -/
theorem C10_selection_total_witness :
    brassLayerCandidates specCatalog ArticulationLayer.soft ≠ [] ∧
    applyPitchMode SampleGroup.stringsCello specCatalog PitchMode.low ≠ [] ∧
    getSampleByPitchGroupAndLayer [] (3/8) SampleGroup.stringsCello PitchMode.low (1/2) (1/4) =
      fallbackPath SampleGroup.stringsCello ∧
    getSampleByPitchGroupAndLayer specCatalog (3/8) SampleGroup.stringsCello PitchMode.low
        (1/2) (1/4) ∈ specCatalog.map SampleInfo.path :=
  have C := C10_selection_total specCatalog specCatalog (3/8) (1/2) (1/4)
    SampleGroup.stringsCello ArticulationLayer.soft PitchMode.low (by norm_num) (by norm_num)
  ⟨C.1 (by decide), C.2.1 (by decide), C.2.2.1, C.2.2.2 (by decide)⟩

end HandMusic
